import Mathlib

/-!
Shallow embedding of `ai_browser_automation` (recorder.py, playback.py,
credentials.py, scheduler.py) and proofs about the spec's claims.

Modelling conventions:
* Python floats used as timestamps / delays are modelled as `ℚ`
  (no float rounding is relevant to any claim).
* Wall-clock side effects (`time.sleep`, `time.time()` durations) are
  modelled as explicit data: sleep calls are collected into a trace list,
  `time.time()` values are passed in as parameters.
* Effectful action execution (pyautogui calls, screenshots) is abstracted
  into an environment record whose functions report, per attempt, either
  success (with an optional screenshot path) or the raised error text.
* Byte strings are modelled as `List ℕ` (idealized bytes).
-/

namespace AIBA

/-- recorder.ActionType: the string enum of recordable action kinds. -/
inductive ActionType where
  | mouse_click
  | mouse_double_click
  | mouse_right_click
  | mouse_move
  | mouse_drag
  | mouse_scroll
  | key_press
  | key_release
  | key_type
  | hotkey
  | screenshot
  | wait
  | credential_input
  | window_focus
  | open_application
  | open_url
  deriving DecidableEq, Repr

/-- recorder.ScreenRegion: captured screen region for visual verification. -/
structure ScreenRegion where
  x : Int
  y : Int
  width : Int
  height : Int
  image_path : Option String := none
  image_hash : Option String := none
  deriving DecidableEq, Repr

/-- recorder.RecordedAction: a single recorded action with metadata.
`options` (a free-form dict) and wall-clock-only bookkeeping are modelled
with the JSON value type introduced later only where needed; here the
field is omitted because no claim reads it through this structure (the
serialization claims use the JSON-level model below). -/
structure RecordedAction where
  id : String
  action_type : ActionType
  timestamp : ℚ
  x : Option Int := none
  y : Option Int := none
  key : Option String := none
  text : Option String := none
  button : Option String := none
  dx : Option Int := none
  dy : Option Int := none
  credential_name : Option String := none
  credential_field : Option String := none
  screen_region : Option ScreenRegion := none
  delay_before : ℚ := 0
  window_title : Option String := none
  window_class : Option String := none
  description : Option String := none
  deriving DecidableEq, Repr

/-- recorder.Recording: complete recording with metadata. The
`created_at`/`updated_at` datetimes are carried as their ISO strings
(datetime.fromisoformat's format validation is not modelled — the
claims never depend on it). -/
structure Recording where
  id : String
  name : String
  description : String := ""
  created_at : String := ""
  updated_at : String := ""
  url : Option String := none
  actions : List RecordedAction := []
  capture_screenshots : Bool := true
  screenshot_region_size : Int := 100
  speed_multiplier : ℚ := 1
  verify_screenshots : Bool := true
  retry_on_failure : Int := 3
  audit_purpose : Option String := none
  audit_verification_goal : Option String := none
  step_screenshot_paths : List (String × String) := []
  email_recipients : List String := []
  deriving DecidableEq, Repr

/-- playback.PlaybackStatus. -/
inductive PlaybackStatus where
  | idle
  | running
  | paused
  | completed
  | failed
  | aborted
  deriving DecidableEq, Repr

/-- playback.PlaybackResult: result of a single action playback.
`duration_ms` and `page_load_time_ms` are wall-clock measurements and are
not modelled. -/
structure PlaybackResult where
  success : Bool
  action_id : String
  action_type : ActionType
  error_message : Option String := none
  screenshot_path : Option String := none
  retry_count : Nat := 0
  deriving DecidableEq, Repr

/-- playback.PlaybackReport: complete playback execution report.
`started_at`/`completed_at` are wall-clock readings and are not modelled. -/
structure PlaybackReport where
  recording_id : String
  recording_name : String
  status : PlaybackStatus
  total_actions : Nat
  completed_actions : Nat
  failed_actions : Nat
  screenshots : List String
  results : List PlaybackResult
  error_message : Option String := none
  deriving DecidableEq, Repr

/-- playback.PlaybackReport.success_rate: completed/total as a percentage,
returning 0.0 when there are no actions. -/
def PlaybackReport.success_rate (r : PlaybackReport) : ℚ :=
  if r.total_actions = 0 then 0
  else ((r.completed_actions : ℚ) / (r.total_actions : ℚ)) * 100

/-- Environment abstracting `PlaybackEngine._execute_action`: for a given
action and (0-based) attempt number it either succeeds, returning the
optional screenshot path `_execute_action` produced, or raises the given
error text. -/
structure ExecEnv where
  runAction : RecordedAction → Nat → Except String (Option String)

/-- The sleep performed at the top of each attempt in
`_execute_action_with_retry`: `if action.delay_before > 0:
time.sleep(min(action.delay_before / self.speed_multiplier, 5.0))`. -/
def preSleeps (speed : ℚ) (a : RecordedAction) : List ℚ :=
  if 0 < a.delay_before then [min (a.delay_before / speed) 5] else []

/-- Outcome of `_execute_action_with_retry`, with the execution trace made
explicit: the returned PlaybackResult, the number of times the action body
was attempted, and the list of `time.sleep` durations in order. -/
structure RetryOutcome where
  result : PlaybackResult
  attempts : Nat
  sleeps : List ℚ
  deriving DecidableEq, Repr

/-- Loop body of `playback.PlaybackEngine._execute_action_with_retry`:
`for attempt in range(max_retries + 1)` with `time.sleep(retry_delay)`
after a failed attempt whenever `attempt < max_retries`; after the loop a
failure result with `retry_count = max_retries` and the last error.
`remaining` counts loop iterations still to run (`max_retries + 1 - attempt`). -/
def retryAux (env : ExecEnv) (speed : ℚ) (maxRetries : Nat) (retryDelay : ℚ)
    (a : RecordedAction) : Nat → Nat → Option String → RetryOutcome
  | 0, _, lastErr =>
    { result := { success := false, action_id := a.id, action_type := a.action_type,
                  error_message := lastErr, retry_count := maxRetries }
      attempts := 0
      sleeps := [] }
  | remaining + 1, attempt, _ =>
    match env.runAction a attempt with
    | .ok ss =>
      { result := { success := true, action_id := a.id, action_type := a.action_type,
                    screenshot_path := ss, retry_count := attempt }
        attempts := 1
        sleeps := preSleeps speed a }
    | .error e =>
      if remaining = 0 then
        { result := { success := false, action_id := a.id, action_type := a.action_type,
                      error_message := some e, retry_count := maxRetries }
          attempts := 1
          sleeps := preSleeps speed a }
      else
        let rest := retryAux env speed maxRetries retryDelay a remaining (attempt + 1) (some e)
        { result := rest.result
          attempts := rest.attempts + 1
          sleeps := preSleeps speed a ++ retryDelay :: rest.sleeps }

/-- playback.PlaybackEngine._execute_action_with_retry. -/
def executeActionWithRetry (env : ExecEnv) (speed : ℚ) (maxRetries : Nat)
    (retryDelay : ℚ) (a : RecordedAction) : RetryOutcome :=
  retryAux env speed maxRetries retryDelay a (maxRetries + 1) 0 none

/-- PlaybackEngine.__init__ default: `self.max_retries = 3`. -/
def defaultMaxRetries : Nat := 3

/-- PlaybackEngine.__init__ default: `self.retry_delay = 1.0`. -/
def defaultRetryDelay : ℚ := 1

/-- Helper lemma: when every attempt raises, the retry loop runs all its
iterations, sleeps `retryDelay` between consecutive attempts (and nothing
else when there is no pre-action delay), and ends in a failure result
carrying the last attempt's error and `retry_count = maxRetries`. -/
theorem retryAux_all_fail (env : ExecEnv) (speed : ℚ) (maxRetries : Nat)
    (retryDelay : ℚ) (a : RecordedAction) (errs : Nat → String)
    (henv : ∀ n, env.runAction a n = .error (errs n))
    (hd : a.delay_before ≤ 0) :
    ∀ remaining attempt lastErr, 0 < remaining →
      retryAux env speed maxRetries retryDelay a remaining attempt lastErr =
        { result := { success := false, action_id := a.id, action_type := a.action_type,
                      error_message := some (errs (attempt + remaining - 1)),
                      retry_count := maxRetries }
          attempts := remaining
          sleeps := List.replicate (remaining - 1) retryDelay } := by
  have hpre : preSleeps speed a = [] := by
    simp [preSleeps, not_lt.mpr hd]
  intro remaining
  induction remaining with
  | zero => intro attempt lastErr h; exact absurd h (by simp)
  | succ n ih =>
    intro attempt lastErr _
    rw [retryAux, henv attempt]
    by_cases hn : n = 0
    · subst hn; simp [hpre]
    · simp only [if_neg hn]
      rw [ih (attempt + 1) (some (errs attempt)) (Nat.pos_of_ne_zero hn)]
      have h1 : attempt + 1 + n - 1 = attempt + (n + 1) - 1 := by omega
      have h2 : n + 1 - 1 = n := by omega
      have h3 : n = (n - 1) + 1 := by omega
      simp only [hpre, List.nil_append, h1, h2]
      rw [h3, List.replicate_succ]
      simp

/-- Python truthiness of an optional string (`if result.screenshot_path:`):
kept only when present and non-empty. -/
def truthyStr : Option String → List String
  | none => []
  | some s => if s = "" then [] else [s]

/-- Loop body of `playback.PlaybackEngine.execute` over
`recording.actions`: append each PlaybackResult, bump the
completed/failed counters, and on a failure with
`recording.retry_on_failure <= 0` set status `failed` with an
`Action failed:` message and break (skipping all remaining actions and the
screenshot collection of the failing result). Abort and pause are external
inputs never triggered in this pure model (`_abort_requested` is cleared
at the start of `execute` and only a concurrent `abort()` call sets it). -/
def executeLoop (env : ExecEnv) (speed : ℚ) (maxRetries : Nat) (retryDelay : ℚ)
    (retryOnFailure : Int) : List RecordedAction → PlaybackReport → PlaybackReport
  | [], report => report
  | a :: rest, report =>
    let out := executeActionWithRetry env speed maxRetries retryDelay a
    let report1 := { report with results := report.results ++ [out.result] }
    if out.result.success then
      let report2 := { report1 with
        completed_actions := report1.completed_actions + 1,
        screenshots := report1.screenshots ++ truthyStr out.result.screenshot_path }
      executeLoop env speed maxRetries retryDelay retryOnFailure rest report2
    else
      let report2 := { report1 with failed_actions := report1.failed_actions + 1 }
      if retryOnFailure ≤ 0 then
        { report2 with
          status := .failed,
          error_message := some ("Action failed: " ++ (out.result.error_message.getD "None")) }
      else
        let report3 := { report2 with
          screenshots := report2.screenshots ++ truthyStr out.result.screenshot_path }
        executeLoop env speed maxRetries retryDelay retryOnFailure rest report3

/-- playback.PlaybackEngine.execute: build the initial running report, run
the action loop, then set the final status to `completed` whenever the
loop finished while still `running` (the source's two branches of that
`if` both assign COMPLETED). The starting-URL side effect and wall-clock
fields are not modelled. -/
def PlaybackEngine.execute (env : ExecEnv) (maxRetries : Nat) (retryDelay : ℚ)
    (recording : Recording) (speed : ℚ) : PlaybackReport :=
  let report0 : PlaybackReport :=
    { recording_id := recording.id
      recording_name := recording.name
      status := .running
      total_actions := recording.actions.length
      completed_actions := 0
      failed_actions := 0
      screenshots := []
      results := [] }
  let report := executeLoop env speed maxRetries retryDelay
    recording.retry_on_failure recording.actions report0
  if report.status = .running then { report with status := .completed } else report

/-- Helper lemma: a first-attempt success gives a success result. -/
theorem executeActionWithRetry_first_ok (env : ExecEnv) (speed : ℚ) (maxRetries : Nat)
    (retryDelay : ℚ) (a : RecordedAction) (ss : Option String)
    (h : env.runAction a 0 = .ok ss) :
    executeActionWithRetry env speed maxRetries retryDelay a =
      { result := { success := true, action_id := a.id, action_type := a.action_type,
                    screenshot_path := ss, retry_count := 0 }
        attempts := 1
        sleeps := preSleeps speed a } := by
  rw [executeActionWithRetry, retryAux, h]

/-- Helper lemma: with a strictly positive `retry_on_failure` every action
is attempted; the loop neither breaks nor changes the status, so exactly
one result per action is appended. -/
theorem executeLoop_no_break (env : ExecEnv) (speed : ℚ) (maxRetries : Nat)
    (retryDelay : ℚ) (retryOnFailure : Int) (hpos : 0 < retryOnFailure) :
    ∀ (actions : List RecordedAction) (report : PlaybackReport),
      (executeLoop env speed maxRetries retryDelay retryOnFailure actions report).status
          = report.status ∧
      (executeLoop env speed maxRetries retryDelay retryOnFailure actions report).results.length
          = report.results.length + actions.length := by
  intro actions
  induction actions with
  | nil => intro report; simp [executeLoop]
  | cons a rest ih =>
    intro report
    rw [executeLoop]
    by_cases hs : (executeActionWithRetry env speed maxRetries retryDelay a).result.success
    · simp only [hs, if_true]
      refine ⟨(ih _).1, ?_⟩
      rw [(ih _).2]
      simp
      omega
    · simp only [hs, Bool.false_eq_true, if_false, if_neg (not_le.mpr hpos)]
      refine ⟨(ih _).1, ?_⟩
      rw [(ih _).2]
      simp
      omega

/-- Zero-padded counter formatting, `f"action_{counter:05d}"`. -/
def pad5 (n : Nat) : String :=
  let s := toString n
  String.mk (List.replicate (5 - s.length) '0') ++ s

/-- recorder.ActionRecorder mutable state (the fields the recording
claims exercise). The scroll-accumulation fields and their
`threading.Timer` are independent of the text path and are not modelled;
the screen-capture, listener and window-query side effects are passed in
as parameters at the call sites that use them. -/
structure RecorderState where
  recording : Bool := false
  paused : Bool := false
  actions : List RecordedAction := []
  action_counter : Nat := 0
  last_action_time : Option ℚ := none
  capture_screenshots : Bool := true
  exclude_rect : Option (Int × Int × Int × Int) := none
  text_buffer : String := ""
  text_buffer_start_time : Option ℚ := none
  sensitive_mode : Bool := false
  current_credential : Option (String × String) := none
  deriving DecidableEq, Repr

/-- recorder.ActionRecorder._generate_action_id: increment the counter and
format it; note the counter mutation happens even when the resulting
action is later dropped by `_record_action`. -/
def generateActionId (s : RecorderState) : String × RecorderState :=
  let c := s.action_counter + 1
  ("action_" ++ pad5 c, { s with action_counter := c })

/-- recorder.ActionRecorder._get_delay at wall-clock time `now`. -/
def getDelay (now : ℚ) (s : RecorderState) : ℚ × RecorderState :=
  match s.last_action_time with
  | none => (0, { s with last_action_time := some now })
  | some t => (now - t, { s with last_action_time := some now })

/-- recorder.ActionRecorder._record_action: append unless not recording
or paused. -/
def recordAction (a : RecordedAction) (s : RecorderState) : RecorderState :=
  if ¬ s.recording ∨ s.paused then s
  else { s with actions := s.actions ++ [a] }

/-- Description text of a flushed KEY_TYPE action:
`f"Type: {buf[:30]}{ellipsis if len(buf) > 30}"`. -/
def keyTypeDescription (buf : String) : String :=
  "Type: " ++ buf.take 30 ++ (if 30 < buf.length then "..." else "")

/-- recorder.ActionRecorder._flush_text_buffer at wall-clock time `now`:
empty buffer is a no-op; in armed sensitive mode the buffer becomes one
CREDENTIAL_INPUT action carrying only the credential reference and the
mode auto-resets; otherwise the buffer becomes one KEY_TYPE action with
the literal text. In both cases the buffer is cleared. -/
def flushTextBuffer (now : ℚ) (s : RecorderState) : RecorderState :=
  if s.text_buffer = "" then s
  else
    match s.sensitive_mode, s.current_credential with
    | true, some (credName, credField) =>
      let (aid, s1) := generateActionId s
      let (delay, s2) := getDelay now s1
      let a : RecordedAction :=
        { id := aid, action_type := .credential_input,
          timestamp := s.text_buffer_start_time.getD now,
          credential_name := some credName, credential_field := some credField,
          delay_before := delay,
          description := some ("Enter " ++ credField ++ " for " ++ credName) }
      let s3 := { s2 with sensitive_mode := false, current_credential := none }
      let s4 := recordAction a s3
      { s4 with text_buffer := "", text_buffer_start_time := none }
    | _, _ =>
      let (aid, s1) := generateActionId s
      let (delay, s2) := getDelay now s1
      let a : RecordedAction :=
        { id := aid, action_type := .key_type,
          timestamp := s.text_buffer_start_time.getD now,
          text := some s.text_buffer,
          delay_before := delay,
          description := some (keyTypeDescription s.text_buffer) }
      let s3 := recordAction a s2
      { s3 with text_buffer := "", text_buffer_start_time := none }

/-- recorder.ActionRecorder.start_recording: no-op when already
recording; otherwise clears the action list, resets pause, records the
start time and the screenshot flag. The action-id counter is NOT touched
here (faithful to the source, which only resets `_actions`). -/
def startRecording (now : ℚ) (captureScreenshots : Bool) (s : RecorderState) : RecorderState :=
  if s.recording then s
  else
    { s with recording := true, paused := false, actions := [],
             last_action_time := some now,
             capture_screenshots := captureScreenshots }

/-- recorder.ActionRecorder.stop_recording: flush pending text, stop, and
return the recorded actions (scroll buffers, empty in this model, would
flush as a no-op). -/
def stopRecording (now : ℚ) (s : RecorderState) : List RecordedAction × RecorderState :=
  let s1 := flushTextBuffer now s
  let s2 := { s1 with recording := false }
  (s2.actions, s2)

/-- recorder.ActionRecorder.pause_recording: set paused, then flush (so a
pending flush at pause time is generated but dropped by
`_record_action`). -/
def pauseRecording (now : ℚ) (s : RecorderState) : RecorderState :=
  flushTextBuffer now { s with paused := true }

/-- recorder.ActionRecorder.mark_sensitive_input: flush pending text,
then arm one-shot sensitive mode for the given credential reference. -/
def markSensitiveInput (now : ℚ) (credName credField : String)
    (s : RecorderState) : RecorderState :=
  let s1 := flushTextBuffer now s
  { s1 with sensitive_mode := true, current_credential := some (credName, credField) }

/-- recorder.ActionRecorder.end_sensitive_input. -/
def endSensitiveInput (now : ℚ) (s : RecorderState) : RecorderState :=
  let s1 := flushTextBuffer now s
  { s1 with sensitive_mode := false, current_credential := none }

/-- A keyboard event as seen by `_on_key_press`: either a printable
character (`key.char` truthy) or a special key with a name. -/
inductive KeyEvent where
  | char (c : Char)
  | special (name : String)
  deriving DecidableEq, Repr

/-- Emit a standalone KEY_PRESS action for a special key (shared shape of
the enter/tab/escape and bare-backspace branches of `_on_key_press`). -/
def emitKeyPress (now : ℚ) (keyName : String) (s : RecorderState) : RecorderState :=
  let (aid, s1) := generateActionId s
  let (delay, s2) := getDelay now s1
  recordAction
    { id := aid, action_type := .key_press, timestamp := now,
      key := some keyName, delay_before := delay,
      description := some ("Press " ++ keyName) } s2

/-- recorder.ActionRecorder._on_key_press at wall-clock time `now`:
characters accumulate in the buffer (starting its timestamp on the first
one); enter/return/tab/escape flush the buffer and emit a KEY_PRESS;
backspace removes the last buffered character, or is emitted as a
KEY_PRESS when the buffer is empty; space accumulates like a character;
all other special keys are ignored. No code path here consults the
elapsed time or `_text_flush_delay` (the source declares that constant
but never uses it). -/
def onKeyPress (now : ℚ) (k : KeyEvent) (s : RecorderState) : RecorderState :=
  match k with
  | .char c =>
    let s1 := if s.text_buffer_start_time = none
              then { s with text_buffer_start_time := some now } else s
    { s1 with text_buffer := s1.text_buffer.push c }
  | .special keyName =>
    if keyName = "enter" ∨ keyName = "return" ∨ keyName = "tab" ∨ keyName = "escape" then
      emitKeyPress now keyName (flushTextBuffer now s)
    else if keyName = "backspace" then
      if s.text_buffer ≠ "" then
        { s with text_buffer := s.text_buffer.dropRight 1 }
      else emitKeyPress now keyName s
    else if keyName = "space" then
      let s1 := if s.text_buffer_start_time = none
                then { s with text_buffer_start_time := some now } else s
      { s1 with text_buffer := s1.text_buffer.push ' ' }
    else s

/-- recorder.ActionRecorder._on_mouse_click: press-only; presses inside
the exclude rectangle are discarded; otherwise flush pending text and
emit a click action (left → MOUSE_CLICK, right → MOUSE_RIGHT_CLICK,
anything else → MOUSE_CLICK) with the captured region when screenshot
capture is on. `region` stands for the value
`_screen_capture.capture_region(x, y, 100, 100)` would produce and
`winTitle` for `_get_window_info()`. -/
def onMouseClick (now : ℚ) (x y : Int) (buttonName : String) (pressed : Bool)
    (region : ScreenRegion) (winTitle : Option String) (s : RecorderState) : RecorderState :=
  if ¬ pressed then s
  else
    let excluded : Bool :=
      match s.exclude_rect with
      | some (rx, ry, rw, rh) => decide (rx ≤ x ∧ x ≤ rx + rw ∧ ry ≤ y ∧ y ≤ ry + rh)
      | none => false
    if excluded then s
    else
      let s1 := flushTextBuffer now s
      let actionType := if buttonName = "left" then ActionType.mouse_click
                        else if buttonName = "right" then ActionType.mouse_right_click
                        else ActionType.mouse_click
      let sr := if s1.capture_screenshots then some region else none
      let (aid, s2) := generateActionId s1
      let (delay, s3) := getDelay now s2
      recordAction
        { id := aid, action_type := actionType, timestamp := now,
          x := some x, y := some y, button := some buttonName,
          screen_region := sr, delay_before := delay,
          window_title := winTitle,
          description := some (buttonName.capitalize ++ " click at (" ++
            toString x ++ ", " ++ toString y ++ ")") } s3

/-- Fold a sequence of typed characters (with their key-press times)
through `_on_key_press`. -/
def typeChars (evts : List (ℚ × Char)) (s : RecorderState) : RecorderState :=
  evts.foldl (fun st e => onKeyPress e.1 (.char e.2) st) s

/-- Fold a sequence of left-button press events through
`_on_mouse_click`. -/
def runClicks (evts : List (ℚ × Int × Int)) (region : ScreenRegion)
    (s : RecorderState) : RecorderState :=
  evts.foldl (fun st e => onMouseClick e.1 e.2.1 e.2.2 "left" true region none st) s

/-- Helper lemma: `_record_action` only touches the action list. -/
theorem recordAction_recording (a : RecordedAction) (s : RecorderState) :
    (recordAction a s).recording = s.recording := by
  rw [recordAction]; split <;> rfl

/-- Helper lemma: `_record_action` preserves the paused flag. -/
theorem recordAction_paused (a : RecordedAction) (s : RecorderState) :
    (recordAction a s).paused = s.paused := by
  rw [recordAction]; split <;> rfl

/-- Helper lemma: `_flush_text_buffer` preserves the recording flag. -/
theorem flushTextBuffer_recording (now : ℚ) (s : RecorderState) :
    (flushTextBuffer now s).recording = s.recording := by
  rw [flushTextBuffer]
  split
  · rfl
  · split <;> cases h : s.last_action_time <;>
      simp [generateActionId, getDelay, recordAction, h] <;> split <;> rfl

/-- Helper lemma: `_flush_text_buffer` preserves the paused flag. -/
theorem flushTextBuffer_paused (now : ℚ) (s : RecorderState) :
    (flushTextBuffer now s).paused = s.paused := by
  rw [flushTextBuffer]
  split
  · rfl
  · split <;> cases h : s.last_action_time <;>
      simp [generateActionId, getDelay, recordAction, h] <;> split <;> rfl

/-- Helper lemma: after any `_flush_text_buffer` the text buffer is empty. -/
theorem flushTextBuffer_text_buffer (now : ℚ) (s : RecorderState) :
    (flushTextBuffer now s).text_buffer = "" := by
  rw [flushTextBuffer]
  split
  · assumption
  · split <;> cases h : s.last_action_time <;>
      simp [generateActionId, getDelay, recordAction, h]

/-- Helper lemma: `mark_sensitive_input` arms sensitive mode, leaves the
buffer empty and preserves the recording/pause flags. -/
theorem markSensitiveInput_spec (now : ℚ) (credName credField : String)
    (s : RecorderState) :
    (markSensitiveInput now credName credField s).sensitive_mode = true ∧
    (markSensitiveInput now credName credField s).current_credential
      = some (credName, credField) ∧
    (markSensitiveInput now credName credField s).text_buffer = "" ∧
    (markSensitiveInput now credName credField s).recording = s.recording ∧
    (markSensitiveInput now credName credField s).paused = s.paused ∧
    (markSensitiveInput now credName credField s).actions
      = (flushTextBuffer now s).actions := by
  refine ⟨rfl, rfl, ?_, ?_, ?_, rfl⟩
  · exact flushTextBuffer_text_buffer now s
  · exact flushTextBuffer_recording now s
  · exact flushTextBuffer_paused now s

/-- Helper lemma: a character key press only grows the text buffer. -/
theorem onKeyPress_char (now : ℚ) (c : Char) (s : RecorderState) :
    onKeyPress now (.char c) s =
      { s with text_buffer := s.text_buffer.push c,
               text_buffer_start_time := some (s.text_buffer_start_time.getD now) } := by
  rw [onKeyPress]
  cases h : s.text_buffer_start_time <;> simp [h]

/-- Helper lemma: typing characters records no actions and preserves all
mode flags; the buffer accumulates exactly the typed characters. -/
theorem typeChars_spec (evts : List (ℚ × Char)) : ∀ s : RecorderState,
    (typeChars evts s).actions = s.actions ∧
    (typeChars evts s).recording = s.recording ∧
    (typeChars evts s).paused = s.paused ∧
    (typeChars evts s).sensitive_mode = s.sensitive_mode ∧
    (typeChars evts s).current_credential = s.current_credential ∧
    (typeChars evts s).text_buffer.data
      = s.text_buffer.data ++ evts.map (fun e => e.2) := by
  induction evts with
  | nil => intro s; simp [typeChars]
  | cons e rest ih =>
    intro s
    have step : typeChars (e :: rest) s
        = typeChars rest (onKeyPress e.1 (.char e.2) s) := rfl
    rw [step, onKeyPress_char]
    refine ⟨(ih _).1, (ih _).2.1, (ih _).2.2.1, (ih _).2.2.2.1, (ih _).2.2.2.2.1, ?_⟩
    rw [(ih _).2.2.2.2.2]
    simp [String.push]

/-- Helper lemma: flushing a non-empty buffer in armed sensitive mode in
an active recording appends exactly one CREDENTIAL_INPUT action with no
text payload, and disarms sensitive mode. -/
theorem flushTextBuffer_sensitive (now : ℚ) (s : RecorderState)
    (credName credField : String)
    (hrec : s.recording = true) (hp : s.paused = false)
    (hbuf : s.text_buffer ≠ "")
    (hsm : s.sensitive_mode = true)
    (hcc : s.current_credential = some (credName, credField)) :
    (∃ a : RecordedAction,
      (flushTextBuffer now s).actions = s.actions ++ [a] ∧
      a.action_type = .credential_input ∧
      a.credential_name = some credName ∧
      a.credential_field = some credField ∧
      a.text = none ∧ a.key = none) ∧
    (flushTextBuffer now s).sensitive_mode = false ∧
    (flushTextBuffer now s).current_credential = none := by
  rw [flushTextBuffer, if_neg hbuf, hsm, hcc]
  cases h : s.last_action_time <;>
    simp [generateActionId, getDelay, recordAction, h, hrec, hp]

/-- Helper lemma: a left click in an active, unpaused recording with no
exclusion rectangle and an empty text buffer appends exactly one action,
whose id is the incremented counter. -/
theorem onMouseClick_emit (now : ℚ) (x y : Int) (buttonName : String)
    (region : ScreenRegion) (winTitle : Option String) (s : RecorderState)
    (hrec : s.recording = true) (hp : s.paused = false)
    (hex : s.exclude_rect = none) (hbuf : s.text_buffer = "") :
    ∃ a : RecordedAction,
      onMouseClick now x y buttonName true region winTitle s =
        { s with actions := s.actions ++ [a],
                 action_counter := s.action_counter + 1,
                 last_action_time := some now } ∧
      a.id = "action_" ++ pad5 (s.action_counter + 1) := by
  rw [onMouseClick]
  cases h : s.last_action_time <;>
    simp [hex, flushTextBuffer, hbuf, generateActionId, getDelay,
      recordAction, hrec, hp, h]

/-- Helper lemma: a run of left clicks in an active recording session
with an empty text buffer appends one action per click whose ids continue
the instance-wide counter consecutively: `action_{c+1} … action_{c+k}`. -/
theorem runClicks_ids (region : ScreenRegion) :
    ∀ (evts : List (ℚ × Int × Int)) (s : RecorderState),
    s.recording = true → s.paused = false → s.exclude_rect = none →
    s.text_buffer = "" →
    (runClicks evts region s).actions.map (fun a => a.id)
      = s.actions.map (fun a => a.id)
        ++ (List.range' (s.action_counter + 1) evts.length).map
            (fun n => "action_" ++ pad5 n) ∧
    (runClicks evts region s).action_counter = s.action_counter + evts.length := by
  intro evts
  induction evts with
  | nil => intro s _ _ _ _; simp [runClicks]
  | cons e rest ih =>
    intro s hrec hp hex hbuf
    obtain ⟨a, hstep, hid⟩ :=
      onMouseClick_emit e.1 e.2.1 e.2.2 "left" region none s hrec hp hex hbuf
    have hrun : runClicks (e :: rest) region s
        = runClicks rest region (onMouseClick e.1 e.2.1 e.2.2 "left" true region none s) := rfl
    rw [hrun, hstep]
    have hres := ih { s with actions := s.actions ++ [a],
                             action_counter := s.action_counter + 1,
                             last_action_time := some e.1 } hrec hp hex hbuf
    refine ⟨?_, ?_⟩
    · rw [hres.1]
      simp only [List.length_cons]
      rw [List.range'_succ]
      simp [hid]
    · rw [hres.2]
      simp
      omega

/-- Helper lemma: when every attempt raises, the PlaybackResult part of
the retry loop is a failure carrying the last attempt's error (no
assumption on `delay_before`). -/
theorem retryAux_all_fail_result (env : ExecEnv) (speed : ℚ) (maxRetries : Nat)
    (retryDelay : ℚ) (a : RecordedAction) (errs : Nat → String)
    (henv : ∀ n, env.runAction a n = .error (errs n)) :
    ∀ remaining attempt lastErr, 0 < remaining →
      (retryAux env speed maxRetries retryDelay a remaining attempt lastErr).result =
        { success := false, action_id := a.id, action_type := a.action_type,
          error_message := some (errs (attempt + remaining - 1)),
          retry_count := maxRetries } := by
  intro remaining
  induction remaining with
  | zero => intro attempt lastErr h; exact absurd h (by simp)
  | succ n ih =>
    intro attempt lastErr _
    rw [retryAux, henv attempt]
    by_cases hn : n = 0
    · subst hn; simp
    · simp only [if_neg hn]
      rw [ih (attempt + 1) (some (errs attempt)) (Nat.pos_of_ne_zero hn)]
      have harg : attempt + 1 + n - 1 = attempt + (n + 1) - 1 := by omega
      simp only [harg]

/-- playback._execute_action_with_retry on an action whose every attempt
raises: the returned result is a failure with the final attempt's error. -/
theorem executeActionWithRetry_all_fail_result (env : ExecEnv) (speed : ℚ)
    (maxRetries : Nat) (retryDelay : ℚ) (a : RecordedAction) (errs : Nat → String)
    (henv : ∀ n, env.runAction a n = .error (errs n)) :
    (executeActionWithRetry env speed maxRetries retryDelay a).result =
      { success := false, action_id := a.id, action_type := a.action_type,
        error_message := some (errs maxRetries), retry_count := maxRetries } := by
  rw [executeActionWithRetry,
    retryAux_all_fail_result env speed maxRetries retryDelay a errs henv
      (maxRetries + 1) 0 none (by omega)]
  have h : 0 + (maxRetries + 1) - 1 = maxRetries := by omega
  rw [h]

/-- scheduler.ScheduleFrequency. -/
inductive ScheduleFrequency where
  | once
  | hourly
  | daily
  | weekly
  | monthly
  | custom
  deriving DecidableEq, Repr

/-- scheduler.Schedule: the scheduled automation configuration (datetime
bookkeeping fields `created_at`/`updated_at`/`last_run`/`next_run` are
wall-clock data not read by any claim and are omitted). -/
structure Schedule where
  id : String
  name : String
  recording_id : String
  recording_name : String
  frequency : ScheduleFrequency
  cron_expression : Option String := none
  email_recipients : List String := []
  is_active : Bool := true
  run_count : Nat := 0
  success_count : Nat := 0
  failure_count : Nat := 0
  speed_multiplier : ℚ := 1
  verify_visuals : Bool := true
  retry_on_failure : Bool := true
  deriving DecidableEq, Repr

/-- Outcome of the `try` body of `AutomationScheduler._execute_schedule`:
either loading the recording and running `PlaybackEngine.execute`
returned a report, or some step raised with the given error text
(e.g. `FileNotFoundError` for a missing recording file). -/
inductive ScheduleRunOutcome where
  | report (r : PlaybackReport)
  | raised (msg : String)
  deriving DecidableEq, Repr

/-- scheduler.AutomationScheduler._execute_schedule, with the load/execute
effects abstracted into `ScheduleRunOutcome`: on a returned report, bump
`run_count` and `success_count` (status COMPLETED) or `failure_count`
(any other status); on an exception, build a synthetic FAILED report with
0 actions carrying the error text and bump `run_count`/`failure_count`.
Both paths email the recipients when a notifier is configured and the
recipient list is non-empty (Python truthiness of
`self._notifier and schedule.email_recipients`). Returns the updated
schedule, the report, and whether an email was sent. -/
def executeSchedule (hasNotifier : Bool) (s : Schedule)
    (o : ScheduleRunOutcome) : Schedule × PlaybackReport × Bool :=
  match o with
  | .report r =>
    let s1 :=
      if r.status = PlaybackStatus.completed then
        { s with run_count := s.run_count + 1,
                 success_count := s.success_count + 1 }
      else
        { s with run_count := s.run_count + 1,
                 failure_count := s.failure_count + 1 }
    (s1, r, hasNotifier && !s.email_recipients.isEmpty)
  | .raised msg =>
    let r : PlaybackReport :=
      { recording_id := s.recording_id
        recording_name := s.recording_name
        status := .failed
        total_actions := 0
        completed_actions := 0
        failed_actions := 0
        screenshots := []
        results := []
        error_message := some msg }
    ({ s with run_count := s.run_count + 1,
              failure_count := s.failure_count + 1 }, r,
     hasNotifier && !s.email_recipients.isEmpty)

/-- Python truthiness of an optional string as a Bool (`if not
expected_region.image_path:` treats both None and "" as absent). -/
def isTruthy (o : Option String) : Bool :=
  match o with
  | none => false
  | some s => !(s == "")

/-- Environment for `playback.VisualVerifier`: `capture` abstracts
`screen_capture.capture_region(x, y, w, h, save=False)`, `compareOk`
abstracts `screen_capture.compare_regions(expected, current, threshold)`,
`iters` is how many polling iterations fit in the 10-second wall-clock
window of `verify_location`, and `locate` abstracts
`pyautogui.locateOnScreen` returning center coordinates. -/
structure VerifyEnv where
  capture : Option Int → Option Int → Int → Int → ScreenRegion
  compareOk : ScreenRegion → ScreenRegion → Bool
  iters : Nat
  locate : ScreenRegion → Option (Int × Int)

/-- The polling loop of `VisualVerifier.verify_location`: capture the
current region and compare until a match or the timeout window is
exhausted. Returns the verdict together with the number of
capture/compare rounds performed. -/
def verifyLocationLoop (env : VerifyEnv) (x y : Option Int)
    (er : ScreenRegion) : Nat → Bool × Nat
  | 0 => (false, 0)
  | n + 1 =>
    let current := env.capture x y er.width er.height
    if env.compareOk er current then (true, 1)
    else
      let rest := verifyLocationLoop env x y er n
      (rest.1, rest.2 + 1)

/-- playback.VisualVerifier.verify_location: returns True immediately —
performing no capture and no comparison — when no expected region is
given or its `image_path` is falsy; otherwise polls the screen. -/
def verifyLocation (env : VerifyEnv) (x y : Option Int)
    (expected : Option ScreenRegion) : Bool × Nat :=
  match expected with
  | none => (true, 0)
  | some er =>
    if ¬ isTruthy er.image_path then (true, 0)
    else verifyLocationLoop env x y er env.iters

/-- playback.VisualVerifier.find_on_screen: None when the region has no
image path, otherwise the (abstracted) image-search result. -/
def findOnScreen (env : VerifyEnv) (er : ScreenRegion) : Option (Int × Int) :=
  if ¬ isTruthy er.image_path then none else env.locate er

/-- Shared coordinate logic of `PlaybackEngine._execute_click`: when
visual verification is enabled and the action carries a screen region,
verify; on verification failure try to re-locate the element (clicking at
the new coordinates if found) and otherwise raise. The returned pair is
what gets passed to `pyautogui.click`. -/
def executeClick (env : VerifyEnv) (verifyVisuals : Bool) (a : RecordedAction) :
    Except String (Option Int × Option Int) :=
  match a.screen_region, verifyVisuals with
  | some sr, true =>
    if (verifyLocation env a.x a.y (some sr)).1 then .ok (a.x, a.y)
    else
      match findOnScreen env sr with
      | some (nx, ny) => .ok (some nx, some ny)
      | none => .error "Visual verification failed"
  | _, _ => .ok (a.x, a.y)

/-- playback.PlaybackEngine._execute_double_click: same verification and
coordinate logic as `_execute_click` (the source duplicates the body,
ending in `pyautogui.doubleClick`). -/
def executeDoubleClick (env : VerifyEnv) (verifyVisuals : Bool)
    (a : RecordedAction) : Except String (Option Int × Option Int) :=
  match a.screen_region, verifyVisuals with
  | some sr, true =>
    if (verifyLocation env a.x a.y (some sr)).1 then .ok (a.x, a.y)
    else
      match findOnScreen env sr with
      | some (nx, ny) => .ok (some nx, some ny)
      | none => .error "Visual verification failed"
  | _, _ => .ok (a.x, a.y)

/-- playback.PlaybackEngine._execute_right_click: same verification and
coordinate logic as `_execute_click` (the source duplicates the body,
ending in `pyautogui.rightClick`). -/
def executeRightClick (env : VerifyEnv) (verifyVisuals : Bool)
    (a : RecordedAction) : Except String (Option Int × Option Int) :=
  match a.screen_region, verifyVisuals with
  | some sr, true =>
    if (verifyLocation env a.x a.y (some sr)).1 then .ok (a.x, a.y)
    else
      match findOnScreen env sr with
      | some (nx, ny) => .ok (some nx, some ny)
      | none => .error "Visual verification failed"
  | _, _ => .ok (a.x, a.y)

/-- credentials.Credential: the secure credential container; its
to_dict/from_dict carry exactly name/username/password/url/notes. -/
structure Credential where
  name : String
  username : String
  password : String
  url : Option String := none
  notes : Option String := none
  deriving DecidableEq, Repr

/-- The decrypted credentials dict (name → credential dict), as the
insertion-ordered association list a Python dict is. -/
abbrev CredMap := List (String × Credential)

/-- Idealized byte strings. -/
abbrev Bytes := List Nat

/-- Length-prefixed block: the serialization cell used by the symbolic
cipher below. -/
def encBlock (l : Bytes) : Bytes := l.length :: l

/-- Read one length-prefixed block back. -/
def decBlock : Bytes → Option (Bytes × Bytes)
  | [] => none
  | n :: rest => if n ≤ rest.length then some (rest.take n, rest.drop n) else none

/-- Idealized UTF-8 encoding of a string (one code point per byte slot;
only injectivity and decodability matter to the claims). -/
def strBytes (s : String) : Bytes := s.data.map Char.toNat

/-- Inverse of `strBytes`. -/
def bytesStr (l : Bytes) : String := String.mk (l.map Char.ofNat)

/-- Optional-string cell: a presence tag, then a block when present. -/
def encodeOptStr : Option String → Bytes
  | none => [0]
  | some s => 1 :: encBlock (strBytes s)

/-- Read an optional-string cell back. -/
def decodeOptStr : Bytes → Option (Option String × Bytes)
  | 0 :: rest => some (none, rest)
  | 1 :: rest => (decBlock rest).map (fun p => (some (bytesStr p.1), p.2))
  | _ => none

/-- Serialization of one credential dict
(`{"name": …, "username": …, "password": …, "url": …, "notes": …}`). -/
def encodeCred (c : Credential) : Bytes :=
  encBlock (strBytes c.name) ++ encBlock (strBytes c.username) ++
  encBlock (strBytes c.password) ++ encodeOptStr c.url ++ encodeOptStr c.notes

/-- Parse one credential dict back (`Credential.from_dict`). -/
def decodeCred (l : Bytes) : Option (Credential × Bytes) :=
  match decBlock l with
  | none => none
  | some (nb, r1) =>
    match decBlock r1 with
    | none => none
    | some (ub, r2) =>
      match decBlock r2 with
      | none => none
      | some (pb, r3) =>
        match decodeOptStr r3 with
        | none => none
        | some (url, r4) =>
          match decodeOptStr r4 with
          | none => none
          | some (notes, r5) =>
            some ({ name := bytesStr nb, username := bytesStr ub,
                    password := bytesStr pb, url := url, notes := notes }, r5)

/-- One (key, credential) entry of the credentials dict. -/
def encodeEntry (e : String × Credential) : Bytes :=
  encBlock (strBytes e.1) ++ encodeCred e.2

/-- Concatenated entries of the credentials dict in insertion order. -/
def encodeEntries : List (String × Credential) → Bytes
  | [] => []
  | e :: rest => encodeEntry e ++ encodeEntries rest

/-- Read `n` entries back. -/
def decodeEntries : Nat → Bytes → Option (List (String × Credential) × Bytes)
  | 0, l => some ([], l)
  | n + 1, l =>
    match decBlock l with
    | none => none
    | some (kb, r1) =>
      match decodeCred r1 with
      | none => none
      | some (c, r2) =>
        match decodeEntries n r2 with
        | none => none
        | some (m, r3) => some ((bytesStr kb, c) :: m, r3)

/-- json.dumps of the whole credentials dict: entry count, then the
entries. -/
def encodeCredMap (m : CredMap) : Bytes := m.length :: encodeEntries m

/-- json.loads of a whole serialized credentials dict (must consume the
input exactly). -/
def decodeCredMap (l : Bytes) : Option CredMap :=
  match l with
  | [] => none
  | n :: rest =>
    match decodeEntries n rest with
    | some (m, []) => some m
    | _ => none

/-- A PBKDF2-derived Fernet key, identified by the password and salt it
was derived from (the KDF is modelled as injective). -/
structure FernetKey where
  password : String
  salt : Bytes
  deriving DecidableEq, Repr

/-- Symbolic model of `EncryptionManager.encrypt_dict`
(json.dumps + Fernet encrypt): the token records the deriving password
and salt and carries the serialized payload. -/
def encryptDict (k : FernetKey) (m : CredMap) : Bytes :=
  encBlock (strBytes k.password) ++ encBlock k.salt ++ encodeCredMap m

/-- Symbolic model of `EncryptionManager.decrypt_dict`
(Fernet decrypt + json.loads): decryption succeeds exactly when the
supplied password and salt match the ones the token was built with
(ideal abstraction of Fernet's authenticated encryption), in which case
the payload parses back. -/
def decryptDict (k : FernetKey) (bs : Bytes) : Option CredMap :=
  match decBlock bs with
  | none => none
  | some (pwb, r1) =>
    match decBlock r1 with
    | none => none
    | some (saltb, r2) =>
      if pwb = strBytes k.password ∧ saltb = k.salt then decodeCredMap r2 else none

/-- credentials.CredentialManager.export_credentials: a 16-byte salt
prefix followed by the Fernet-encrypted JSON payload; `salt` stands in
for the fresh `secrets.token_bytes(16)` drawn by
`EncryptionManager.__init__`. -/
def exportCredentials (pw : String) (salt : Bytes) (store : CredMap) : Bytes :=
  salt ++ encryptDict ⟨pw, salt⟩ store

/-- credentials.CredentialManager.store_credential (encrypted-file path):
`credentials[credential.name] = credential.to_dict()` — replace in place
when the key exists, append otherwise, as Python dict assignment does. -/
def storeCredential (st : CredMap) (c : Credential) : CredMap :=
  if st.any (fun e => e.1 == c.name) then
    st.map (fun e => if e.1 == c.name then (c.name, c) else e)
  else st ++ [(c.name, c)]

/-- credentials.CredentialManager.import_credentials: require at least 17
bytes, split the 16-byte salt prefix from the ciphertext, decrypt
(ValueError on a bad password or corrupted payload), then store each
decoded credential, returning the count imported. The first component is
the credential store after the call; both error paths raise before any
`store_credential`, leaving it untouched. -/
def importCredentials (st : CredMap) (data : Bytes) (pw : String) :
    CredMap × Except String Nat :=
  if data.length < 17 then (st, .error "Invalid export data")
  else
    match decryptDict ⟨pw, data.take 16⟩ (data.drop 16) with
    | none => (st, .error "Invalid import password or corrupted export data")
    | some creds =>
      (creds.foldl (fun acc e => storeCredential acc e.2) st, .ok creds.length)

/-- Helper lemma: reading back a length-prefixed block. -/
theorem decBlock_encBlock (l r : Bytes) : decBlock (encBlock l ++ r) = some (l, r) := by
  show decBlock (l.length :: (l ++ r)) = some (l, r)
  rw [decBlock, if_pos (by simp), List.take_left, List.drop_left]

/-- Helper lemma: `bytesStr` inverts `strBytes`. -/
theorem bytesStr_strBytes (s : String) : bytesStr (strBytes s) = s := by
  simp [bytesStr, strBytes, List.map_map, Function.comp_def, Char.ofNat_toNat]

/-- Helper lemma: the idealized UTF-8 encoding is injective. -/
theorem strBytes_inj {s1 s2 : String} (h : strBytes s1 = strBytes s2) : s1 = s2 := by
  have h2 := congrArg bytesStr h
  rwa [bytesStr_strBytes, bytesStr_strBytes] at h2

/-- Helper lemma: reading back an optional-string cell. -/
theorem decodeOptStr_encodeOptStr (o : Option String) (r : Bytes) :
    decodeOptStr (encodeOptStr o ++ r) = some (o, r) := by
  cases o with
  | none => rfl
  | some s =>
    show decodeOptStr (1 :: (encBlock (strBytes s) ++ r)) = _
    rw [decodeOptStr, decBlock_encBlock]
    simp [bytesStr_strBytes]

/-- Helper lemma: reading back one serialized credential. -/
theorem decodeCred_encodeCred (c : Credential) (r : Bytes) :
    decodeCred (encodeCred c ++ r) = some (c, r) := by
  simp [encodeCred, decodeCred, List.append_assoc, decBlock_encBlock,
    decodeOptStr_encodeOptStr, bytesStr_strBytes]

/-- Helper lemma: reading back a serialized entry list. -/
theorem decodeEntries_encodeEntries (m : List (String × Credential)) :
    ∀ r, decodeEntries m.length (encodeEntries m ++ r) = some (m, r) := by
  induction m with
  | nil => intro r; rfl
  | cons e rest ih =>
    intro r
    show decodeEntries (rest.length + 1)
      ((encBlock (strBytes e.1) ++ encodeCred e.2) ++ encodeEntries rest ++ r) = _
    rw [decodeEntries]
    rw [List.append_assoc, List.append_assoc, decBlock_encBlock]
    simp only [decodeCred_encodeCred, ih, bytesStr_strBytes]

/-- Helper lemma: reading back a whole serialized credentials dict. -/
theorem decodeCredMap_encodeCredMap (m : CredMap) :
    decodeCredMap (encodeCredMap m) = some m := by
  have h := decodeEntries_encodeEntries m []
  rw [List.append_nil] at h
  rw [encodeCredMap, decodeCredMap, h]

/-- Helper lemma: decrypting a token with the key it was built with
recovers the payload. -/
theorem decryptDict_encryptDict (k : FernetKey) (m : CredMap) :
    decryptDict k (encryptDict k m) = some m := by
  rw [encryptDict, decryptDict, List.append_assoc, decBlock_encBlock]
  simp [decBlock_encBlock, decodeCredMap_encodeCredMap]

/-- Helper lemma: storing a credential whose name is absent from the
store appends it. -/
theorem storeCredential_fresh (st : CredMap) (c : Credential)
    (h : ∀ x ∈ st, x.1 ≠ c.name) :
    storeCredential st c = st ++ [(c.name, c)] := by
  rw [storeCredential, if_neg]
  simp only [List.any_eq_true, not_exists, not_and]
  intro x hx
  simpa using h x hx

/-- Helper lemma: importing entries with pairwise-distinct names, all
fresh for the accumulator and each keyed by its credential's name,
appends them in order. -/
theorem foldl_storeCredential (entries : List (String × Credential)) :
    ∀ acc : CredMap,
    (∀ e ∈ entries, e.1 = e.2.name) →
    (entries.map Prod.fst).Nodup →
    (∀ e ∈ entries, ∀ x ∈ acc, x.1 ≠ e.2.name) →
    entries.foldl (fun acc e => storeCredential acc e.2) acc = acc ++ entries := by
  induction entries with
  | nil => intro acc _ _ _; simp
  | cons e rest ih =>
    intro acc hkey hnd hdisj
    have hk : e.1 = e.2.name := hkey e (by simp)
    have hstore : storeCredential acc e.2 = acc ++ [(e.2.name, e.2)] :=
      storeCredential_fresh acc e.2 (fun x hx => hdisj e (by simp) x hx)
    have he : (e.2.name, e.2) = e := by
      cases e with
      | mk k c => simp at hk; rw [← hk]
    have hnd' : (rest.map Prod.fst).Nodup := by
      simp only [List.map_cons, List.nodup_cons] at hnd
      exact hnd.2
    have hfresh : e.1 ∉ rest.map Prod.fst := by
      simp only [List.map_cons, List.nodup_cons] at hnd
      exact hnd.1
    have hdisj' : ∀ e' ∈ rest, ∀ x ∈ acc ++ [(e.2.name, e.2)], x.1 ≠ e'.2.name := by
      intro e' he' x hx
      rcases List.mem_append.mp hx with hx1 | hx2
      · exact hdisj e' (List.mem_cons_of_mem e he') x hx1
      · have hxe : x = (e.2.name, e.2) := by simpa using hx2
        have hk' : e'.1 = e'.2.name := hkey e' (List.mem_cons_of_mem e he')
        rw [hxe]
        show e.2.name ≠ e'.2.name
        rw [← hk, ← hk']
        intro hcontra
        rw [hcontra] at hfresh
        exact hfresh (List.mem_map_of_mem Prod.fst he')
    rw [List.foldl_cons, hstore,
      ih (acc ++ [(e.2.name, e.2)])
        (fun e' he' => hkey e' (List.mem_cons_of_mem e he'))
        hnd' hdisj']
    rw [he, List.append_assoc]
    rfl

/-- Helper lemma: decrypting with a key derived from a different password
fails (the authenticated token rejects the mismatched key). -/
theorem decryptDict_wrong_password (pw pw' : String) (salt : Bytes) (m : CredMap)
    (h : pw' ≠ pw) :
    decryptDict ⟨pw', salt⟩ (encryptDict ⟨pw, salt⟩ m) = none := by
  rw [encryptDict, decryptDict, List.append_assoc, decBlock_encBlock]
  simp only [decBlock_encBlock]
  rw [if_neg (fun hc => h (strBytes_inj hc.1).symm)]

/-- Helper lemma: `import_credentials` on successfully decrypted data
stores every decoded credential and returns the count. -/
theorem importCredentials_ok (st0 : CredMap) (data : Bytes) (pw : String)
    (creds : CredMap) (hlen : ¬ data.length < 17)
    (hdec : decryptDict ⟨pw, data.take 16⟩ (data.drop 16) = some creds) :
    importCredentials st0 data pw
      = (creds.foldl (fun acc e => storeCredential acc e.2) st0, .ok creds.length) := by
  rw [importCredentials, if_neg hlen, hdec]

/-- Helper lemma: `import_credentials` raises on failed decryption,
leaving the store untouched. -/
theorem importCredentials_badDecrypt (st0 : CredMap) (data : Bytes) (pw : String)
    (hlen : ¬ data.length < 17)
    (hdec : decryptDict ⟨pw, data.take 16⟩ (data.drop 16) = none) :
    importCredentials st0 data pw
      = (st0, .error "Invalid import password or corrupted export data") := by
  rw [importCredentials, if_neg hlen, hdec]

/-- JSON-like values for the serialized recording format. -/
inductive JValue where
  | jnull
  | jbool (b : Bool)
  | jnum (q : ℚ)
  | jstr (s : String)
  | jarr (xs : List JValue)
  | jobj (fields : List (String × JValue))

/-- A Python dict with string keys, in insertion order. -/
abbrev Dict := List (String × JValue)

/-- Python `d[k]` / `k in d` lookup: first (only, for real dicts) entry. -/
def jget (d : Dict) (k : String) : Option JValue :=
  match d with
  | [] => none
  | e :: rest => if e.1 == k then some e.2 else jget rest k

/-- Decode a JSON string. Python dataclasses do not type-check their
constructor arguments; this model decodes values by the dataclass
fields' declared types, so an ill-typed value is a decode error instead
of a silently ill-typed object — no claim depends on ill-typed inputs. -/
def asStr : JValue → Except String String
  | .jstr s => .ok s
  | _ => .error "TypeError: expected str"

/-- Decode a JSON number as a Python float. -/
def asRat : JValue → Except String ℚ
  | .jnum q => .ok q
  | _ => .error "TypeError: expected float"

/-- Decode a JSON integer. -/
def asInt : JValue → Except String Int
  | .jnum q => if q.den = 1 then .ok q.num else .error "TypeError: expected int"
  | _ => .error "TypeError: expected int"

/-- Decode a JSON bool. -/
def asBool : JValue → Except String Bool
  | .jbool b => .ok b
  | _ => .error "TypeError: expected bool"

/-- Decode a JSON object. -/
def asObj : JValue → Except String Dict
  | .jobj fields => .ok fields
  | _ => .error "TypeError: expected dict"

/-- Decode a JSON array. -/
def asArr : JValue → Except String (List JValue)
  | .jarr xs => .ok xs
  | _ => .error "TypeError: expected list"

/-- Decode a JSON object with string values (`Dict[str, str]`). -/
def asStrMap (v : JValue) : Except String (List (String × String)) :=
  match v with
  | .jobj fields => fields.mapM (fun e => (asStr e.2).map (fun s => (e.1, s)))
  | _ => .error "TypeError: expected dict"

/-- Optional dataclass field: absent or JSON null both yield the None
default. -/
def getOpt (d : Dict) (k : String) (dec : JValue → Except String α) :
    Except String (Option α) :=
  match jget d k with
  | none => .ok none
  | some .jnull => .ok none
  | some v => (dec v).map some

/-- Required dataclass field (TypeError from `cls(**kwargs)` when the
key is missing). -/
def getReq (d : Dict) (k : String) (dec : JValue → Except String α) :
    Except String α :=
  match jget d k with
  | none => .error ("TypeError: missing required argument " ++ k)
  | some v => dec v

/-- Required dataclass field of an Optional type (present but null is a
legitimate None value, e.g. `Recording.url`). -/
def getReqNullable (d : Dict) (k : String) (dec : JValue → Except String α) :
    Except String (Option α) :=
  match jget d k with
  | none => .error ("TypeError: missing required argument " ++ k)
  | some .jnull => .ok none
  | some v => (dec v).map some

/-- Dataclass field with a non-None default value. -/
def getDefault (d : Dict) (k : String) (dec : JValue → Except String α)
    (dflt : α) : Except String α :=
  match jget d k with
  | none => .ok dflt
  | some v => dec v

/-- recorder.ScreenRegion field names considered by `ScreenRegion(**d)`. -/
def regionFieldNames : List String :=
  ["x", "y", "width", "height", "image_path", "image_hash"]

/-- `ScreenRegion(**d)`: TypeError on an unexpected keyword, required
x/y/width/height, optional image fields. -/
def screenRegionFromKwargs (d : Dict) : Except String ScreenRegion :=
  if d.any (fun e => !(regionFieldNames.contains e.1)) then
    .error "TypeError: unexpected keyword argument"
  else do
    let x ← getReq d "x" asInt
    let y ← getReq d "y" asInt
    let w ← getReq d "width" asInt
    let h ← getReq d "height" asInt
    let ip ← getOpt d "image_path" asStr
    let ih ← getOpt d "image_hash" asStr
    pure { x := x, y := y, width := w, height := h,
           image_path := ip, image_hash := ih }

/-- `ActionType(value)`: the str-enum constructor, ValueError on an
unknown value. -/
def actionTypeFromRaw (s : String) : Except String ActionType :=
  if s = "mouse_click" then .ok .mouse_click
  else if s = "mouse_double_click" then .ok .mouse_double_click
  else if s = "mouse_right_click" then .ok .mouse_right_click
  else if s = "mouse_move" then .ok .mouse_move
  else if s = "mouse_drag" then .ok .mouse_drag
  else if s = "mouse_scroll" then .ok .mouse_scroll
  else if s = "key_press" then .ok .key_press
  else if s = "key_release" then .ok .key_release
  else if s = "key_type" then .ok .key_type
  else if s = "hotkey" then .ok .hotkey
  else if s = "screenshot" then .ok .screenshot
  else if s = "wait" then .ok .wait
  else if s = "credential_input" then .ok .credential_input
  else if s = "window_focus" then .ok .window_focus
  else if s = "open_application" then .ok .open_application
  else if s = "open_url" then .ok .open_url
  else .error "ValueError: not a valid ActionType"

/-- recorder.RecordedAction dataclass field names (the filter target of
`from_dict`). -/
def actionFieldNames : List String :=
  ["id", "action_type", "timestamp", "x", "y", "key", "text", "button",
   "dx", "dy", "credential_name", "credential_field", "screen_region",
   "delay_before", "window_title", "window_class", "options", "description"]

/-- recorder.RecordedAction.from_dict: pop and parse `screen_region`,
parse `action_type`, filter the remaining keys to the dataclass fields
(dropping unknown keys to avoid a TypeError), and construct. The
free-form `options` dict is accepted but not carried (no claim reads
it). -/
def RecordedAction.fromDict (d : Dict) : Except String RecordedAction := do
  let sr ← match jget d "screen_region" with
    | none => pure (none : Option ScreenRegion)
    | some v => do
        let srd ← asObj v
        let r ← screenRegionFromKwargs srd
        pure (some r)
  let atv ← getReq d "action_type" asStr
  let at1 ← actionTypeFromRaw atv
  let i ← getReq d "id" asStr
  let ts ← getReq d "timestamp" asRat
  let x ← getOpt d "x" asInt
  let y ← getOpt d "y" asInt
  let k ← getOpt d "key" asStr
  let tx ← getOpt d "text" asStr
  let b ← getOpt d "button" asStr
  let dxv ← getOpt d "dx" asInt
  let dyv ← getOpt d "dy" asInt
  let cn ← getOpt d "credential_name" asStr
  let cf ← getOpt d "credential_field" asStr
  let db ← getDefault d "delay_before" asRat 0
  let wt ← getOpt d "window_title" asStr
  let wc ← getOpt d "window_class" asStr
  let desc ← getOpt d "description" asStr
  pure { id := i, action_type := at1, timestamp := ts, x := x, y := y,
         key := k, text := tx, button := b, dx := dxv, dy := dyv,
         credential_name := cn, credential_field := cf, screen_region := sr,
         delay_before := db, window_title := wt, window_class := wc,
         description := desc }

/-- recorder.Recording dataclass field names (the filter target of
`from_dict`). -/
def recordingFieldNames : List String :=
  ["id", "name", "description", "created_at", "updated_at", "url",
   "actions", "capture_screenshots", "screenshot_region_size",
   "speed_multiplier", "verify_screenshots", "retry_on_failure",
   "audit_purpose", "audit_verification_goal", "step_screenshot_paths",
   "email_recipients"]

/-- recorder.Recording.from_dict: parse the datetimes, parse each action
dict, default the audit fields that older recordings lack, filter the
keys to the dataclass fields (dropping unknown keys to avoid a
TypeError), and construct. -/
def Recording.fromDict (d : Dict) : Except String Recording := do
  let ca ← getReq d "created_at" asStr
  let ua ← getReq d "updated_at" asStr
  let avs ← getReq d "actions" asArr
  let acts ← avs.mapM (fun v => asObj v >>= RecordedAction.fromDict)
  let i ← getReq d "id" asStr
  let nm ← getReq d "name" asStr
  let desc ← getReq d "description" asStr
  let url ← getReqNullable d "url" asStr
  let cs ← getDefault d "capture_screenshots" asBool true
  let srs ← getDefault d "screenshot_region_size" asInt 100
  let sm ← getDefault d "speed_multiplier" asRat 1
  let vs ← getDefault d "verify_screenshots" asBool true
  let rof ← getDefault d "retry_on_failure" asInt 3
  let ap ← getOpt d "audit_purpose" asStr
  let avg ← getOpt d "audit_verification_goal" asStr
  let ssp ← getDefault d "step_screenshot_paths" asStrMap []
  let er ← getDefault d "email_recipients"
    (fun v => asArr v >>= fun xs => xs.mapM asStr) []
  pure { id := i, name := nm, description := desc, created_at := ca,
         updated_at := ua, url := url, actions := acts,
         capture_screenshots := cs, screenshot_region_size := srs,
         speed_multiplier := sm, verify_screenshots := vs,
         retry_on_failure := rof, audit_purpose := ap,
         audit_verification_goal := avg, step_screenshot_paths := ssp,
         email_recipients := er }

/-- Removing unknown keys from a serialized dict before deserializing. -/
def filterKnown (names : List String) (d : Dict) : Dict :=
  d.filter (fun e => names.contains e.1)

/-- Helper lemma: filtering to a key set preserves lookups of keys in
the set. -/
theorem jget_filterKnown (names : List String) (k : String)
    (h : names.contains k = true) :
    ∀ d : Dict, jget (filterKnown names d) k = jget d k := by
  intro d
  induction d with
  | nil => rfl
  | cons e rest ih =>
    simp only [filterKnown] at ih ⊢
    rw [List.filter_cons]
    by_cases hmem : names.contains e.1
    · rw [if_pos (by simpa using hmem), jget, jget]
      by_cases hek : (e.1 == k) = true
      · rw [if_pos hek, if_pos hek]
      · rw [if_neg (by simpa using hek), if_neg (by simpa using hek)]
        exact ih
    · rw [if_neg (by simpa using hmem), jget]
      have hek : (e.1 == k) = false := by
        by_cases he : e.1 = k
        · rw [he] at hmem
          exact absurd h hmem
        · simpa using he
      rw [hek]
      simp only [Bool.false_eq_true, if_false]
      exact ih

end AIBA

/-- C8: PlaybackReport.success_rate is total: it returns 0.0 when
`total_actions = 0` (no division by zero), and equals
`completed_actions / total_actions * 100` when `total_actions > 0`. -/
theorem c8_success_rate_total (r : AIBA.PlaybackReport) :
    (r.total_actions = 0 → r.success_rate = 0) ∧
    (0 < r.total_actions →
      r.success_rate = ((r.completed_actions : ℚ) / (r.total_actions : ℚ)) * 100) := by
  constructor
  · intro h
    simp [AIBA.PlaybackReport.success_rate, h]
  · intro h
    simp [AIBA.PlaybackReport.success_rate, Nat.pos_iff_ne_zero.mp h]

/-- Witness for C8 at a concrete report with 0 total actions and at one
with 4 total actions, 3 completed. -/
theorem c8_success_rate_total_witness :
    ({ recording_id := "r", recording_name := "r", status := .completed,
       total_actions := 0, completed_actions := 0, failed_actions := 0,
       screenshots := [], results := [] : AIBA.PlaybackReport }).success_rate = 0 ∧
    ({ recording_id := "r", recording_name := "r", status := .completed,
       total_actions := 4, completed_actions := 3, failed_actions := 1,
       screenshots := [], results := [] : AIBA.PlaybackReport }).success_rate = 75 := by
  refine ⟨(c8_success_rate_total _).1 rfl, ?_⟩
  rw [(c8_success_rate_total _).2 (by decide)]
  norm_num

/-- C4: an action whose execution always raises is attempted exactly
`max_retries + 1 = 4` times, with a `retry_delay = 1.0`-second sleep
between consecutive attempts, and yields a PlaybackResult with
`success = false`, `retry_count = 3`, and `error_message` equal to the
last attempt's error text; the loop completes and records the error
rather than propagating it. -/
theorem c4_retry_exhaustion (env : AIBA.ExecEnv) (speed : ℚ)
    (a : AIBA.RecordedAction) (errs : Nat → String)
    (henv : ∀ n, env.runAction a n = .error (errs n))
    (hd : a.delay_before ≤ 0) :
    (AIBA.executeActionWithRetry env speed AIBA.defaultMaxRetries
        AIBA.defaultRetryDelay a).attempts = 4 ∧
    (AIBA.executeActionWithRetry env speed AIBA.defaultMaxRetries
        AIBA.defaultRetryDelay a).sleeps = [1, 1, 1] ∧
    (AIBA.executeActionWithRetry env speed AIBA.defaultMaxRetries
        AIBA.defaultRetryDelay a).result =
      { success := false, action_id := a.id, action_type := a.action_type,
        error_message := some (errs 3), retry_count := 3 } := by
  have h := AIBA.retryAux_all_fail env speed AIBA.defaultMaxRetries
    AIBA.defaultRetryDelay a errs henv hd 4 0 none (by omega)
  rw [AIBA.executeActionWithRetry, show AIBA.defaultMaxRetries + 1 = 4 from rfl, h]
  refine ⟨rfl, rfl, rfl⟩

/-- Witness for C4: a concrete always-failing action environment. -/
theorem c4_retry_exhaustion_witness :
    (AIBA.executeActionWithRetry ⟨fun _ _ => .error "boom"⟩ 1 AIBA.defaultMaxRetries
        AIBA.defaultRetryDelay
        { id := "a1", action_type := .mouse_click, timestamp := 0 }).attempts = 4 ∧
    (AIBA.executeActionWithRetry ⟨fun _ _ => .error "boom"⟩ 1 AIBA.defaultMaxRetries
        AIBA.defaultRetryDelay
        { id := "a1", action_type := .mouse_click, timestamp := 0 }).sleeps = [1, 1, 1] ∧
    (AIBA.executeActionWithRetry ⟨fun _ _ => .error "boom"⟩ 1 AIBA.defaultMaxRetries
        AIBA.defaultRetryDelay
        { id := "a1", action_type := .mouse_click, timestamp := 0 }).result =
      { success := false, action_id := "a1", action_type := .mouse_click,
        error_message := some "boom", retry_count := 3 } :=
  c4_retry_exhaustion ⟨fun _ _ => .error "boom"⟩ 1
    { id := "a1", action_type := .mouse_click, timestamp := 0 }
    (fun _ => "boom") (fun _ => rfl) (by norm_num)

/-- C1: with `retry_on_failure <= 0`, a recording of 5 actions whose 2nd
action fails after all its retries produces a report with status `failed`,
`completed_actions = 1`, and results only for the first two actions
(nothing for actions 3-5); the same recording with `retry_on_failure = 3`
attempts all 5 actions and always finishes with status `completed`, no
matter which actions failed. -/
theorem c1_playback_abort_gate (env : AIBA.ExecEnv) (speed : ℚ)
    (a1 a2 a3 a4 a5 : AIBA.RecordedAction) (rec0 rec3 : AIBA.Recording)
    (hacts0 : rec0.actions = [a1, a2, a3, a4, a5])
    (hrof0 : rec0.retry_on_failure = 0)
    (hacts3 : rec3.actions = [a1, a2, a3, a4, a5])
    (hrof3 : rec3.retry_on_failure = 3)
    (ss1 : Option String) (h1 : env.runAction a1 0 = .ok ss1)
    (h2 : ∀ n, ∃ e, env.runAction a2 n = .error e) :
    ((AIBA.PlaybackEngine.execute env AIBA.defaultMaxRetries AIBA.defaultRetryDelay
        rec0 speed).status = .failed ∧
     (AIBA.PlaybackEngine.execute env AIBA.defaultMaxRetries AIBA.defaultRetryDelay
        rec0 speed).completed_actions = 1 ∧
     (AIBA.PlaybackEngine.execute env AIBA.defaultMaxRetries AIBA.defaultRetryDelay
        rec0 speed).results.map (fun r => r.action_id) = [a1.id, a2.id]) ∧
    ((AIBA.PlaybackEngine.execute env AIBA.defaultMaxRetries AIBA.defaultRetryDelay
        rec3 speed).status = .completed ∧
     (AIBA.PlaybackEngine.execute env AIBA.defaultMaxRetries AIBA.defaultRetryDelay
        rec3 speed).results.length = 5) := by
  choose errs herrs using h2
  have hr1 := AIBA.executeActionWithRetry_first_ok env speed AIBA.defaultMaxRetries
    AIBA.defaultRetryDelay a1 ss1 h1
  have hr2 := AIBA.executeActionWithRetry_all_fail_result env speed AIBA.defaultMaxRetries
    AIBA.defaultRetryDelay a2 errs herrs
  constructor
  · rw [AIBA.PlaybackEngine.execute, hacts0, hrof0]
    rw [AIBA.executeLoop, hr1]
    simp only [AIBA.executeLoop, hr2]
    simp [AIBA.truthyStr]
  · have hnb := AIBA.executeLoop_no_break env speed AIBA.defaultMaxRetries
      AIBA.defaultRetryDelay 3 (by norm_num)
    rw [AIBA.PlaybackEngine.execute, hacts3, hrof3]
    refine ⟨?_, ?_⟩
    · rw [if_pos]
      exact (hnb [a1, a2, a3, a4, a5] _).1
    · rw [if_pos ((hnb [a1, a2, a3, a4, a5] _).1)]
      simpa using (hnb [a1, a2, a3, a4, a5] _).2

/-- Witness for C1: concrete 5-action recordings where the 2nd action
always fails and every other action succeeds on the first attempt. -/
theorem c1_playback_abort_gate_witness :
    ((AIBA.PlaybackEngine.execute
        ⟨fun a _ => if a.id = "a2" then .error "boom" else .ok none⟩
        AIBA.defaultMaxRetries AIBA.defaultRetryDelay
        { id := "rec", name := "rec",
          actions := [{ id := "a1", action_type := .wait, timestamp := 0 },
                      { id := "a2", action_type := .wait, timestamp := 0 },
                      { id := "a3", action_type := .wait, timestamp := 0 },
                      { id := "a4", action_type := .wait, timestamp := 0 },
                      { id := "a5", action_type := .wait, timestamp := 0 }],
          retry_on_failure := 0 } 1).status = .failed ∧
     (AIBA.PlaybackEngine.execute
        ⟨fun a _ => if a.id = "a2" then .error "boom" else .ok none⟩
        AIBA.defaultMaxRetries AIBA.defaultRetryDelay
        { id := "rec", name := "rec",
          actions := [{ id := "a1", action_type := .wait, timestamp := 0 },
                      { id := "a2", action_type := .wait, timestamp := 0 },
                      { id := "a3", action_type := .wait, timestamp := 0 },
                      { id := "a4", action_type := .wait, timestamp := 0 },
                      { id := "a5", action_type := .wait, timestamp := 0 }],
          retry_on_failure := 0 } 1).completed_actions = 1 ∧
     (AIBA.PlaybackEngine.execute
        ⟨fun a _ => if a.id = "a2" then .error "boom" else .ok none⟩
        AIBA.defaultMaxRetries AIBA.defaultRetryDelay
        { id := "rec", name := "rec",
          actions := [{ id := "a1", action_type := .wait, timestamp := 0 },
                      { id := "a2", action_type := .wait, timestamp := 0 },
                      { id := "a3", action_type := .wait, timestamp := 0 },
                      { id := "a4", action_type := .wait, timestamp := 0 },
                      { id := "a5", action_type := .wait, timestamp := 0 }],
          retry_on_failure := 0 } 1).results.map (fun r => r.action_id)
        = ["a1", "a2"]) ∧
    ((AIBA.PlaybackEngine.execute
        ⟨fun a _ => if a.id = "a2" then .error "boom" else .ok none⟩
        AIBA.defaultMaxRetries AIBA.defaultRetryDelay
        { id := "rec", name := "rec",
          actions := [{ id := "a1", action_type := .wait, timestamp := 0 },
                      { id := "a2", action_type := .wait, timestamp := 0 },
                      { id := "a3", action_type := .wait, timestamp := 0 },
                      { id := "a4", action_type := .wait, timestamp := 0 },
                      { id := "a5", action_type := .wait, timestamp := 0 }],
          retry_on_failure := 3 } 1).status = .completed ∧
     (AIBA.PlaybackEngine.execute
        ⟨fun a _ => if a.id = "a2" then .error "boom" else .ok none⟩
        AIBA.defaultMaxRetries AIBA.defaultRetryDelay
        { id := "rec", name := "rec",
          actions := [{ id := "a1", action_type := .wait, timestamp := 0 },
                      { id := "a2", action_type := .wait, timestamp := 0 },
                      { id := "a3", action_type := .wait, timestamp := 0 },
                      { id := "a4", action_type := .wait, timestamp := 0 },
                      { id := "a5", action_type := .wait, timestamp := 0 }],
          retry_on_failure := 3 } 1).results.length = 5) :=
  c1_playback_abort_gate
    ⟨fun a _ => if a.id = "a2" then .error "boom" else .ok none⟩ 1
    { id := "a1", action_type := .wait, timestamp := 0 }
    { id := "a2", action_type := .wait, timestamp := 0 }
    { id := "a3", action_type := .wait, timestamp := 0 }
    { id := "a4", action_type := .wait, timestamp := 0 }
    { id := "a5", action_type := .wait, timestamp := 0 }
    { id := "rec", name := "rec",
      actions := [{ id := "a1", action_type := .wait, timestamp := 0 },
                  { id := "a2", action_type := .wait, timestamp := 0 },
                  { id := "a3", action_type := .wait, timestamp := 0 },
                  { id := "a4", action_type := .wait, timestamp := 0 },
                  { id := "a5", action_type := .wait, timestamp := 0 }],
      retry_on_failure := 0 }
    { id := "rec", name := "rec",
      actions := [{ id := "a1", action_type := .wait, timestamp := 0 },
                  { id := "a2", action_type := .wait, timestamp := 0 },
                  { id := "a3", action_type := .wait, timestamp := 0 },
                  { id := "a4", action_type := .wait, timestamp := 0 },
                  { id := "a5", action_type := .wait, timestamp := 0 }],
      retry_on_failure := 3 }
    rfl rfl rfl rfl none rfl (fun _ => ⟨"boom", rfl⟩)

/-- C2: after `mark_sensitive_input(name, field)` arms sensitive mode,
typing any non-empty text records nothing, and flushing that text emits
no KEY_TYPE action at all: it appends exactly one CREDENTIAL_INPUT action
carrying only the credential name and field (no text, no key), and
sensitive mode is automatically reset afterward (one-shot). -/
theorem c2_credential_redaction (s : AIBA.RecorderState) (t0 t1 : ℚ)
    (credName credField : String) (evts : List (ℚ × Char))
    (hrec : s.recording = true) (hp : s.paused = false) (hevts : evts ≠ []) :
    let s1 := AIBA.markSensitiveInput t0 credName credField s
    let s2 := AIBA.typeChars evts s1
    let s3 := AIBA.flushTextBuffer t1 s2
    s2.actions = s1.actions ∧
    (∃ a : AIBA.RecordedAction,
      s3.actions = s2.actions ++ [a] ∧
      a.action_type = .credential_input ∧
      a.credential_name = some credName ∧
      a.credential_field = some credField ∧
      a.text = none ∧ a.key = none) ∧
    s3.sensitive_mode = false ∧
    s3.current_credential = none := by
  intro s1 s2 s3
  have hm := AIBA.markSensitiveInput_spec t0 credName credField s
  have ht := AIBA.typeChars_spec evts s1
  have hrec2 : s2.recording = true := by
    rw [ht.2.1, hm.2.2.2.1, hrec]
  have hp2 : s2.paused = false := by
    rw [ht.2.2.1, hm.2.2.2.2.1, hp]
  have hbuf2 : s2.text_buffer ≠ "" := by
    intro h
    have hd : s2.text_buffer.data = [] := by rw [h]
    rw [ht.2.2.2.2.2, hm.2.2.1] at hd
    simp at hd
    exact hevts hd
  have hsm2 : s2.sensitive_mode = true := by
    rw [ht.2.2.2.1, hm.1]
  have hcc2 : s2.current_credential = some (credName, credField) := by
    rw [ht.2.2.2.2.1, hm.2.1]
  have hflush := AIBA.flushTextBuffer_sensitive t1 s2 credName credField
    hrec2 hp2 hbuf2 hsm2 hcc2
  exact ⟨ht.1, hflush.1, hflush.2.1, hflush.2.2⟩

/-- Witness for C2: marking ("Portal", "password") then typing one
character in an active recording session. -/
theorem c2_credential_redaction_witness :
    let s1 := AIBA.markSensitiveInput 0 "Portal" "password"
      { recording := true : AIBA.RecorderState }
    let s2 := AIBA.typeChars [((0 : ℚ), 'p')] s1
    let s3 := AIBA.flushTextBuffer 1 s2
    s2.actions = s1.actions ∧
    (∃ a : AIBA.RecordedAction,
      s3.actions = s2.actions ++ [a] ∧
      a.action_type = .credential_input ∧
      a.credential_name = some "Portal" ∧
      a.credential_field = some "password" ∧
      a.text = none ∧ a.key = none) ∧
    s3.sensitive_mode = false ∧
    s3.current_credential = none :=
  c2_credential_redaction { recording := true } 0 1 "Portal" "password"
    [((0 : ℚ), 'p')] rfl rfl (by simp)

/-- C5 counterexample: the action-id counter is NOT reset by
`start_recording`. After a first session that recorded one click
(id `action_00001`), a second `start_recording` session's first click
receives id `action_00002`, refuting "ids are `action_00001` …
`action_0000N`" for sessions after the first. -/
theorem c5_counterexample_second_session :
    ((AIBA.stopRecording 2
        (AIBA.onMouseClick 1 5 6 "left" true ⟨0, 0, 100, 100, none, none⟩ none
          (AIBA.startRecording 0 true {}))).1.map (fun a => a.id)
      = ["action_00001"]) ∧
    ((AIBA.onMouseClick 4 5 6 "left" true ⟨0, 0, 100, 100, none, none⟩ none
        (AIBA.startRecording 3 true
          (AIBA.stopRecording 2
            (AIBA.onMouseClick 1 5 6 "left" true ⟨0, 0, 100, 100, none, none⟩ none
              (AIBA.startRecording 0 true {}))).2)).actions.map (fun a => a.id)
      = ["action_00002"]) ∧
    "action_00002" ≠ "action_00001" := by
  refine ⟨?_, ?_, by decide⟩ <;> rfl

/-- C5 (amended): within a session the emitted action ids continue the
instance-lifetime counter consecutively — k recorded actions from counter
value c get ids `action_{c+1} … action_{c+k}`, strictly increasing and
gapless — and `start_recording` does not reset the counter, so ids run
`action_00001 … action_0000N` only when the counter is still 0 (the
instance's first session, no id having been consumed earlier). -/
theorem c5_action_id_monotonicity_amended :
    (∀ (now : ℚ) (cap : Bool) (s : AIBA.RecorderState),
      (AIBA.startRecording now cap s).action_counter = s.action_counter) ∧
    (∀ (region : AIBA.ScreenRegion) (evts : List (ℚ × Int × Int))
       (s : AIBA.RecorderState),
      s.recording = true → s.paused = false → s.exclude_rect = none →
      s.text_buffer = "" →
      (AIBA.runClicks evts region s).actions.map (fun a => a.id)
        = s.actions.map (fun a => a.id)
          ++ (List.range' (s.action_counter + 1) evts.length).map
              (fun n => "action_" ++ AIBA.pad5 n)) := by
  constructor
  · intro now cap s
    rw [AIBA.startRecording]
    split <;> rfl
  · intro region evts s hrec hp hex hbuf
    exact (AIBA.runClicks_ids region evts s hrec hp hex hbuf).1

/-- Witness for C5 (amended): a freshly started first session emits ids
`action_00001`, `action_00002`; and `start_recording` on a state whose
counter is 3 keeps the counter at 3. -/
theorem c5_action_id_monotonicity_amended_witness :
    (AIBA.startRecording 5 true { action_counter := 3 }).action_counter = 3 ∧
    (AIBA.runClicks [(1, 5, 6), (2, 7, 8)] ⟨0, 0, 100, 100, none, none⟩
        (AIBA.startRecording 0 true {})).actions.map (fun a => a.id)
      = ["action_00001", "action_00002"] := by
  refine ⟨c5_action_id_monotonicity_amended.1 5 true { action_counter := 3 }, ?_⟩
  have h := c5_action_id_monotonicity_amended.2 ⟨0, 0, 100, 100, none, none⟩
    [(1, 5, 6), (2, 7, 8)] (AIBA.startRecording 0 true {}) rfl rfl rfl rfl
  simpa using h

/-- C6 (exhibiting the code bug): typing "h","e","l","l","o" at times
0, 0.1, 0.2, 0.3, 0.4 s into a fresh recording session emits NO action at
all — the buffered text just sits in `_text_buffer` — because nothing in
the source ever consults `_text_flush_delay`; the 600 ms of following
inactivity cannot flush since no code runs on mere time passage. The text
is emitted as a single KEY_TYPE "hello" only by an explicit flush such as
`stop_recording`. -/
theorem c6_text_debounce_no_idle_flush :
    ((AIBA.typeChars
        [(0, 'h'), (1/10, 'e'), (2/10, 'l'), (3/10, 'l'), (4/10, 'o')]
        (AIBA.startRecording 0 true {})).actions = []) ∧
    ((AIBA.typeChars
        [(0, 'h'), (1/10, 'e'), (2/10, 'l'), (3/10, 'l'), (4/10, 'o')]
        (AIBA.startRecording 0 true {})).text_buffer = "hello") ∧
    ((AIBA.stopRecording 1
        (AIBA.typeChars
          [(0, 'h'), (1/10, 'e'), (2/10, 'l'), (3/10, 'l'), (4/10, 'o')]
          (AIBA.startRecording 0 true {}))).1.map (fun a => (a.action_type, a.text))
      = [(.key_type, some "hello")]) := by
  refine ⟨rfl, rfl, rfl⟩

/-- C7: for every scheduled execution, a playback report with status
`completed` bumps `run_count` and `success_count` by exactly 1 leaving
`failure_count` unchanged; a `failed` status (including the synthetic
failed report built when loading or executing raises) bumps `run_count`
and `failure_count` by exactly 1 leaving `success_count` unchanged; and
the exception path still updates the counters and still emails the
recipients (whenever a notifier is configured and recipients exist). -/
theorem c7_run_accounting (hasNotifier : Bool) (s : AIBA.Schedule)
    (o : AIBA.ScheduleRunOutcome) :
    ((AIBA.executeSchedule hasNotifier s o).2.1.status = .completed →
      (AIBA.executeSchedule hasNotifier s o).1.run_count = s.run_count + 1 ∧
      (AIBA.executeSchedule hasNotifier s o).1.success_count = s.success_count + 1 ∧
      (AIBA.executeSchedule hasNotifier s o).1.failure_count = s.failure_count) ∧
    ((AIBA.executeSchedule hasNotifier s o).2.1.status = .failed →
      (AIBA.executeSchedule hasNotifier s o).1.run_count = s.run_count + 1 ∧
      (AIBA.executeSchedule hasNotifier s o).1.failure_count = s.failure_count + 1 ∧
      (AIBA.executeSchedule hasNotifier s o).1.success_count = s.success_count) ∧
    (∀ msg, o = .raised msg →
      (AIBA.executeSchedule hasNotifier s o).2.1.status = .failed ∧
      (AIBA.executeSchedule hasNotifier s o).2.1.error_message = some msg ∧
      (AIBA.executeSchedule hasNotifier s o).1.run_count = s.run_count + 1 ∧
      (AIBA.executeSchedule hasNotifier s o).1.failure_count = s.failure_count + 1 ∧
      (AIBA.executeSchedule hasNotifier s o).2.2
        = (hasNotifier && !s.email_recipients.isEmpty)) := by
  cases o with
  | report r =>
    by_cases h : r.status = AIBA.PlaybackStatus.completed
    · refine ⟨fun _ => ?_, fun hf => ?_, fun msg hmsg => by cases hmsg⟩
      · simp [AIBA.executeSchedule, h]
      · rw [show (AIBA.executeSchedule hasNotifier s (.report r)).2.1 = r from rfl] at hf
        rw [hf] at h
        exact absurd h (by decide)
    · refine ⟨fun hc => ?_, fun _ => ?_, fun msg hmsg => by cases hmsg⟩
      · rw [show (AIBA.executeSchedule hasNotifier s (.report r)).2.1 = r from rfl] at hc
        exact absurd hc h
      · simp [AIBA.executeSchedule, h]
  | raised msg =>
    refine ⟨fun hc => ?_, fun _ => ?_, fun m hm => ?_⟩
    · exact absurd hc (by simp [AIBA.executeSchedule])
    · simp [AIBA.executeSchedule]
    · cases hm
      simp [AIBA.executeSchedule]

/-- Witness for C7: a schedule with counters (2 runs, 1 success,
1 failure) and a recipient, exercised on a completed report and on the
exception path. -/
theorem c7_run_accounting_witness :
    ((AIBA.executeSchedule true
        { id := "s1", name := "s1", recording_id := "r1", recording_name := "r1",
          frequency := .daily, email_recipients := ["ops@example.com"],
          run_count := 2, success_count := 1, failure_count := 1 }
        (.report { recording_id := "r1", recording_name := "r1",
                   status := .completed, total_actions := 1,
                   completed_actions := 1, failed_actions := 0,
                   screenshots := [], results := [] })).1.run_count = 3 ∧
     (AIBA.executeSchedule true
        { id := "s1", name := "s1", recording_id := "r1", recording_name := "r1",
          frequency := .daily, email_recipients := ["ops@example.com"],
          run_count := 2, success_count := 1, failure_count := 1 }
        (.report { recording_id := "r1", recording_name := "r1",
                   status := .completed, total_actions := 1,
                   completed_actions := 1, failed_actions := 0,
                   screenshots := [], results := [] })).1.success_count = 2 ∧
     (AIBA.executeSchedule true
        { id := "s1", name := "s1", recording_id := "r1", recording_name := "r1",
          frequency := .daily, email_recipients := ["ops@example.com"],
          run_count := 2, success_count := 1, failure_count := 1 }
        (.report { recording_id := "r1", recording_name := "r1",
                   status := .completed, total_actions := 1,
                   completed_actions := 1, failed_actions := 0,
                   screenshots := [], results := [] })).1.failure_count = 1) ∧
    ((AIBA.executeSchedule true
        { id := "s1", name := "s1", recording_id := "r1", recording_name := "r1",
          frequency := .daily, email_recipients := ["ops@example.com"],
          run_count := 2, success_count := 1, failure_count := 1 }
        (.raised "Recording not found: r1")).2.1.status = .failed ∧
     (AIBA.executeSchedule true
        { id := "s1", name := "s1", recording_id := "r1", recording_name := "r1",
          frequency := .daily, email_recipients := ["ops@example.com"],
          run_count := 2, success_count := 1, failure_count := 1 }
        (.raised "Recording not found: r1")).2.1.error_message
        = some "Recording not found: r1" ∧
     (AIBA.executeSchedule true
        { id := "s1", name := "s1", recording_id := "r1", recording_name := "r1",
          frequency := .daily, email_recipients := ["ops@example.com"],
          run_count := 2, success_count := 1, failure_count := 1 }
        (.raised "Recording not found: r1")).1.run_count = 3 ∧
     (AIBA.executeSchedule true
        { id := "s1", name := "s1", recording_id := "r1", recording_name := "r1",
          frequency := .daily, email_recipients := ["ops@example.com"],
          run_count := 2, success_count := 1, failure_count := 1 }
        (.raised "Recording not found: r1")).1.failure_count = 2 ∧
     (AIBA.executeSchedule true
        { id := "s1", name := "s1", recording_id := "r1", recording_name := "r1",
          frequency := .daily, email_recipients := ["ops@example.com"],
          run_count := 2, success_count := 1, failure_count := 1 }
        (.raised "Recording not found: r1")).2.2 = true) := by
  constructor
  · exact (c7_run_accounting true
      { id := "s1", name := "s1", recording_id := "r1", recording_name := "r1",
        frequency := .daily, email_recipients := ["ops@example.com"],
        run_count := 2, success_count := 1, failure_count := 1 }
      (.report { recording_id := "r1", recording_name := "r1",
                 status := .completed, total_actions := 1,
                 completed_actions := 1, failed_actions := 0,
                 screenshots := [], results := [] })).1 rfl
  · have h := (c7_run_accounting true
      { id := "s1", name := "s1", recording_id := "r1", recording_name := "r1",
        frequency := .daily, email_recipients := ["ops@example.com"],
        run_count := 2, success_count := 1, failure_count := 1 }
      (.raised "Recording not found: r1")).2.2 "Recording not found: r1" rfl
    exact ⟨h.1, h.2.1, h.2.2.1, h.2.2.2.1, h.2.2.2.2⟩

/-- C10: for clicks, double-clicks and right-clicks replayed with visual
verification enabled, when the action carries no screen region, or a
screen region without a (truthy) saved image path, `verify_location`
returns True immediately with zero capture/compare rounds and the click
proceeds at the originally recorded coordinates. -/
theorem c10_verification_skip (env : AIBA.VerifyEnv) (a : AIBA.RecordedAction) :
    (a.screen_region = none →
      AIBA.executeClick env true a = .ok (a.x, a.y) ∧
      AIBA.executeDoubleClick env true a = .ok (a.x, a.y) ∧
      AIBA.executeRightClick env true a = .ok (a.x, a.y)) ∧
    (∀ sr, a.screen_region = some sr → AIBA.isTruthy sr.image_path = false →
      AIBA.verifyLocation env a.x a.y (some sr) = (true, 0) ∧
      AIBA.executeClick env true a = .ok (a.x, a.y) ∧
      AIBA.executeDoubleClick env true a = .ok (a.x, a.y) ∧
      AIBA.executeRightClick env true a = .ok (a.x, a.y)) := by
  constructor
  · intro h
    refine ⟨?_, ?_, ?_⟩ <;>
      simp [AIBA.executeClick, AIBA.executeDoubleClick, AIBA.executeRightClick, h]
  · intro sr hsr himg
    have hv : AIBA.verifyLocation env a.x a.y (some sr) = (true, 0) := by
      simp [AIBA.verifyLocation, himg]
    refine ⟨hv, ?_, ?_, ?_⟩ <;>
      simp [AIBA.executeClick, AIBA.executeDoubleClick, AIBA.executeRightClick, hsr, hv]

/-- Witness for C10: a click action with no screen region, and one whose
region was captured without saving an image. -/
theorem c10_verification_skip_witness :
    (AIBA.executeClick ⟨fun _ _ _ _ => ⟨0, 0, 0, 0, none, none⟩, fun _ _ => false, 20, fun _ => none⟩
        true { id := "a1", action_type := .mouse_click, timestamp := 0,
               x := some 40, y := some 50 } = .ok (some 40, some 50)) ∧
    (AIBA.verifyLocation ⟨fun _ _ _ _ => ⟨0, 0, 0, 0, none, none⟩, fun _ _ => false, 20, fun _ => none⟩
        (some 40) (some 50) (some ⟨10, 10, 100, 100, none, none⟩) = (true, 0)) ∧
    (AIBA.executeRightClick ⟨fun _ _ _ _ => ⟨0, 0, 0, 0, none, none⟩, fun _ _ => false, 20, fun _ => none⟩
        true { id := "a2", action_type := .mouse_right_click, timestamp := 0,
               x := some 40, y := some 50,
               screen_region := some ⟨10, 10, 100, 100, none, none⟩ }
      = .ok (some 40, some 50)) := by
  refine ⟨?_, ?_, ?_⟩
  · exact ((c10_verification_skip
      ⟨fun _ _ _ _ => ⟨0, 0, 0, 0, none, none⟩, fun _ _ => false, 20, fun _ => none⟩
      { id := "a1", action_type := .mouse_click, timestamp := 0,
        x := some 40, y := some 50 }).1 rfl).1
  · exact ((c10_verification_skip
      ⟨fun _ _ _ _ => ⟨0, 0, 0, 0, none, none⟩, fun _ _ => false, 20, fun _ => none⟩
      { id := "a2", action_type := .mouse_right_click, timestamp := 0,
        x := some 40, y := some 50,
        screen_region := some ⟨10, 10, 100, 100, none, none⟩ }).2
      ⟨10, 10, 100, 100, none, none⟩ rfl rfl).1
  · exact ((c10_verification_skip
      ⟨fun _ _ _ _ => ⟨0, 0, 0, 0, none, none⟩, fun _ _ => false, 20, fun _ => none⟩
      { id := "a2", action_type := .mouse_right_click, timestamp := 0,
        x := some 40, y := some 50,
        screen_region := some ⟨10, 10, 100, 100, none, none⟩ }).2
      ⟨10, 10, 100, 100, none, none⟩ rfl rfl).2.2.2

/-- C3: exporting the credential store with password "P1" and importing
the bytes with "P1" into an empty store reproduces every credential's
name/username/password/url/notes exactly and returns the credential
count; importing with a wrong password, or with fewer than 17 bytes,
raises an invalid-input error and stores nothing, leaving the credential
store unchanged. -/
theorem c3_export_import_roundtrip (pw pw' : String) (salt : AIBA.Bytes)
    (st st0 : AIBA.CredMap)
    (hsalt : salt.length = 16)
    (hkeys : ∀ e ∈ st, e.1 = e.2.name)
    (hnd : (st.map Prod.fst).Nodup)
    (hpw : pw' ≠ pw) :
    (AIBA.importCredentials [] (AIBA.exportCredentials pw salt st) pw
      = (st, .ok st.length)) ∧
    (AIBA.importCredentials st0 (AIBA.exportCredentials pw salt st) pw'
      = (st0, .error "Invalid import password or corrupted export data")) ∧
    (∀ data : AIBA.Bytes, data.length < 17 →
      AIBA.importCredentials st0 data pw = (st0, .error "Invalid export data")) := by
  have hlen : ¬ (AIBA.exportCredentials pw salt st).length < 17 := by
    simp only [AIBA.exportCredentials, AIBA.encryptDict, AIBA.encBlock,
      List.length_append, List.length_cons, hsalt]
    omega
  have htake : (AIBA.exportCredentials pw salt st).take 16 = salt := by
    rw [AIBA.exportCredentials, ← hsalt, List.take_left]
  have hdrop : (AIBA.exportCredentials pw salt st).drop 16
      = AIBA.encryptDict ⟨pw, salt⟩ st := by
    rw [AIBA.exportCredentials, ← hsalt, List.drop_left]
  refine ⟨?_, ?_, ?_⟩
  · rw [AIBA.importCredentials_ok [] _ pw st hlen
      (by rw [htake, hdrop]; exact AIBA.decryptDict_encryptDict _ _)]
    rw [AIBA.foldl_storeCredential st [] hkeys hnd
      (fun e _ x hx => absurd hx (List.not_mem_nil x))]
    rw [List.nil_append]
  · exact AIBA.importCredentials_badDecrypt st0 _ pw' hlen
      (by rw [htake, hdrop]; exact AIBA.decryptDict_wrong_password pw pw' salt st hpw)
  · intro data hdata
    rw [AIBA.importCredentials, if_pos hdata]

/-- Witness for C3: one stored credential, export password "P1", wrong
password "P2", and a 3-byte blob for the too-short case. -/
theorem c3_export_import_roundtrip_witness :
    (AIBA.importCredentials []
        (AIBA.exportCredentials "P1" (List.replicate 16 7)
          [("acct", { name := "acct", username := "alice", password := "hunter2",
                      url := none, notes := some "note" })]) "P1"
      = ([("acct", { name := "acct", username := "alice", password := "hunter2",
                     url := none, notes := some "note" })], .ok 1)) ∧
    (AIBA.importCredentials []
        (AIBA.exportCredentials "P1" (List.replicate 16 7)
          [("acct", { name := "acct", username := "alice", password := "hunter2",
                      url := none, notes := some "note" })]) "P2"
      = ([], .error "Invalid import password or corrupted export data")) ∧
    (AIBA.importCredentials [] [1, 2, 3] "P1"
      = ([], .error "Invalid export data")) := by
  have h := c3_export_import_roundtrip "P1" "P2" (List.replicate 16 7)
    [("acct", { name := "acct", username := "alice", password := "hunter2",
                url := none, notes := some "note" })] []
    (by simp) (by decide) (by decide) (by decide)
  exact ⟨h.1, h.2.1, h.2.2 [1, 2, 3] (by decide)⟩

/-- C9: deserialization is forward-compatible at the public interface:
for any serialized action or recording dictionary, `from_dict` gives
exactly the same outcome as deserializing the dictionary with all keys
outside the known dataclass fields removed — unknown keys are silently
dropped and never cause an error, because both `from_dict`s filter their
keyword arguments to the known fields before constructing. -/
theorem c9_forward_compatibility :
    (∀ d : AIBA.Dict,
      AIBA.RecordedAction.fromDict d
        = AIBA.RecordedAction.fromDict (AIBA.filterKnown AIBA.actionFieldNames d)) ∧
    (∀ d : AIBA.Dict,
      AIBA.Recording.fromDict d
        = AIBA.Recording.fromDict (AIBA.filterKnown AIBA.recordingFieldNames d)) := by
  constructor
  · intro d
    have h01 := AIBA.jget_filterKnown AIBA.actionFieldNames "screen_region" (by decide) d
    have h02 := AIBA.jget_filterKnown AIBA.actionFieldNames "action_type" (by decide) d
    have h03 := AIBA.jget_filterKnown AIBA.actionFieldNames "id" (by decide) d
    have h04 := AIBA.jget_filterKnown AIBA.actionFieldNames "timestamp" (by decide) d
    have h05 := AIBA.jget_filterKnown AIBA.actionFieldNames "x" (by decide) d
    have h06 := AIBA.jget_filterKnown AIBA.actionFieldNames "y" (by decide) d
    have h07 := AIBA.jget_filterKnown AIBA.actionFieldNames "key" (by decide) d
    have h08 := AIBA.jget_filterKnown AIBA.actionFieldNames "text" (by decide) d
    have h09 := AIBA.jget_filterKnown AIBA.actionFieldNames "button" (by decide) d
    have h10 := AIBA.jget_filterKnown AIBA.actionFieldNames "dx" (by decide) d
    have h11 := AIBA.jget_filterKnown AIBA.actionFieldNames "dy" (by decide) d
    have h12 := AIBA.jget_filterKnown AIBA.actionFieldNames "credential_name" (by decide) d
    have h13 := AIBA.jget_filterKnown AIBA.actionFieldNames "credential_field" (by decide) d
    have h14 := AIBA.jget_filterKnown AIBA.actionFieldNames "delay_before" (by decide) d
    have h15 := AIBA.jget_filterKnown AIBA.actionFieldNames "window_title" (by decide) d
    have h16 := AIBA.jget_filterKnown AIBA.actionFieldNames "window_class" (by decide) d
    have h17 := AIBA.jget_filterKnown AIBA.actionFieldNames "description" (by decide) d
    simp only [AIBA.RecordedAction.fromDict, AIBA.getReq, AIBA.getOpt,
      AIBA.getDefault, h01, h02, h03, h04, h05, h06, h07, h08, h09, h10,
      h11, h12, h13, h14, h15, h16, h17]
  · intro d
    have h01 := AIBA.jget_filterKnown AIBA.recordingFieldNames "created_at" (by decide) d
    have h02 := AIBA.jget_filterKnown AIBA.recordingFieldNames "updated_at" (by decide) d
    have h03 := AIBA.jget_filterKnown AIBA.recordingFieldNames "actions" (by decide) d
    have h04 := AIBA.jget_filterKnown AIBA.recordingFieldNames "id" (by decide) d
    have h05 := AIBA.jget_filterKnown AIBA.recordingFieldNames "name" (by decide) d
    have h06 := AIBA.jget_filterKnown AIBA.recordingFieldNames "description" (by decide) d
    have h07 := AIBA.jget_filterKnown AIBA.recordingFieldNames "url" (by decide) d
    have h08 := AIBA.jget_filterKnown AIBA.recordingFieldNames "capture_screenshots" (by decide) d
    have h09 := AIBA.jget_filterKnown AIBA.recordingFieldNames "screenshot_region_size" (by decide) d
    have h10 := AIBA.jget_filterKnown AIBA.recordingFieldNames "speed_multiplier" (by decide) d
    have h11 := AIBA.jget_filterKnown AIBA.recordingFieldNames "verify_screenshots" (by decide) d
    have h12 := AIBA.jget_filterKnown AIBA.recordingFieldNames "retry_on_failure" (by decide) d
    have h13 := AIBA.jget_filterKnown AIBA.recordingFieldNames "audit_purpose" (by decide) d
    have h14 := AIBA.jget_filterKnown AIBA.recordingFieldNames "audit_verification_goal" (by decide) d
    have h15 := AIBA.jget_filterKnown AIBA.recordingFieldNames "step_screenshot_paths" (by decide) d
    have h16 := AIBA.jget_filterKnown AIBA.recordingFieldNames "email_recipients" (by decide) d
    simp only [AIBA.Recording.fromDict, AIBA.getReq, AIBA.getOpt,
      AIBA.getReqNullable, AIBA.getDefault, h01, h02, h03, h04, h05, h06,
      h07, h08, h09, h10, h11, h12, h13, h14, h15, h16]
